import Mathlib

/-!
Verification development for the redditPost repository.

The repository is a small React single-page app that browses Reddit
content plus a thin Express proxy.  This file gives a shallow embedding
of the parts of the code that the verified statements are about:

* `fetchPosts` — the fetch controller of `src/App.tsx` (direct-URL
  lookup, the multi-page "engagement" aggregation, the standard listing
  path, error classification, abort handling and the `finally` cleanup).
  Network traffic and the `AbortSignal` are modelled by an environment
  `Env` that maps the index of each `await`ed fetch to its result and
  gives the abort flag as seen by the synchronous code segment that runs
  after that many awaits have completed.
* `handleSubredditChange` / `handleGlobalSearch` / `handleUrlSearch` —
  the query-state switches of `src/App.tsx`.
* `startFetch` / `effectCleanup` — the abort-controller replacement
  protocol of `src/App.tsx` (lines 66-69 and 225-230).
* `apiFetchProxy` — the `/api/fetch` handler of `src/server.js`.
* `proceedWithVideoDownload` — the DASH-manifest download logic of
  `src/components/PostCard.tsx`.

JavaScript strings are Lean `String`s, JS numbers that the code treats
as integers are `Nat`/`Int`, truthiness of strings is the test against
`""`, and `undefined`/`null` are `Option`.
-/

/-! ## Small JavaScript string helpers -/

/-- Whether `pat` is an initial segment of `l`. -/
def listStartsWith : List Char → List Char → Bool
  | _, [] => true
  | [], _ :: _ => false
  | c :: cs, d :: ds => c = d && listStartsWith cs ds

/-- Whether `pat` occurs somewhere in `l`. -/
def listContainsSub : List Char → List Char → Bool
  | [], pat => pat.isEmpty
  | c :: cs, pat => listStartsWith (c :: cs) pat || listContainsSub cs pat

/-- Substring test: JS `/pat/.test(s)` for a literal pattern `pat`. -/
def containsSub (s pat : String) : Bool :=
  listContainsSub s.data pat.data

/-- JS `s.split('?')[0]`: everything before the first question mark. -/
def beforeQuery (s : String) : String :=
  ⟨s.data.takeWhile (fun c => c ≠ '?')⟩

/-- JS `s.replace(/\/$/, '')`: drop a single trailing slash. -/
def stripTrailingSlash (s : String) : String :=
  if s.data.getLast? = some '/' then ⟨s.data.dropLast⟩ else s

/-- Hex digit (uppercase), for percent-encoding. -/
def hexChar (n : Nat) : Char :=
  if n < 10 then Char.ofNat (48 + n) else Char.ofNat (55 + n)

/-- UTF-8 bytes of a code point, as numbers. -/
def utf8Bytes (n : Nat) : List Nat :=
  if n < 128 then [n]
  else if n < 2048 then [192 + n / 64, 128 + n % 64]
  else if n < 65536 then [224 + n / 4096, 128 + (n / 64) % 64, 128 + n % 64]
  else [240 + n / 262144, 128 + (n / 4096) % 64, 128 + (n / 64) % 64, 128 + n % 64]

/-- One percent-encoded byte, e.g. `%2F`. -/
def percentByte (b : Nat) : String :=
  "%" ++ String.mk [hexChar (b / 16), hexChar (b % 16)]

/-- JS `encodeURIComponent` leaves alphanumerics and `- _ . ! ~ * ' ( )`
unescaped and percent-encodes the UTF-8 bytes of every other character. -/
def encodeChar (c : Char) : String :=
  if c.isAlphanum || [45, 95, 46, 33, 126, 42, 39, 40, 41].contains c.toNat then
    String.mk [c]
  else
    String.join ((utf8Bytes c.toNat).map percentByte)

/-- JS `encodeURIComponent`. -/
def encodeURIComponent (s : String) : String :=
  String.join (s.data.map encodeChar)

/-! ## Data model (src/types.ts) -/

/-- The `reddit_video` media descriptor of `src/types.ts`. -/
structure RedditVideo where
  fallback_url : String
  hls_url : String
  dash_url : String
  duration : Nat
  height : Nat
  width : Nat
  is_gif : Bool
deriving DecidableEq, Repr

/-- The fields of the `RedditPost` record of `src/types.ts` that the
verified code paths read (plus `subreddit`, which `src/App.tsx` and the
modals read off the duck-typed API payload).  `media` is `some` exactly
when `post.media?.reddit_video` is present. -/
structure RedditPost where
  id : String
  title : String
  author : String
  score : Int
  num_comments : Int
  permalink : String
  url : String
  created_utc : Nat
  is_video : Bool
  thumbnail : String
  subreddit : String
  media : Option RedditVideo
deriving DecidableEq, Repr

/-- A post value with neutral defaults, for building concrete inputs. -/
def mkPost : RedditPost :=
  { id := "p1", title := "t", author := "a", score := 0, num_comments := 0,
    permalink := "/r/cats/comments/p1/t/", url := "", created_utc := 0,
    is_video := false, thumbnail := "", subreddit := "cats", media := none }

/-! ## The network environment seen by `fetchPosts` (src/App.tsx)

`fetchPosts` is an async function: its code runs as synchronous segments
separated by `await`ed fetches (we fold each `fetch` together with the
reading and parsing of its body, since aborting the signal rejects both
with `AbortError`).  Segment `t` is the code that runs after `t` awaits
have completed; `Env.aborted t` is `signal.aborted` as read in segment
`t`, and `Env.fetchResult t` is the outcome of the fetch initiated in
segment `t`.  JS is single threaded, so the flag cannot change within a
segment; the consistency laws `EnvConsistent` state exactly that. -/

/-- The parsed JSON body of a response, as the duck-typed checks of
`src/App.tsx` see it. -/
inductive JsonBody where
  /-- `JSON.parse` / `response.json()` throws; the string is the
  engine's `SyntaxError` message. -/
  | malformed (msg : String)
  /-- An object with `data.children` (a post list) and `data.after`
  (the page cursor, `null` modelled as `none`). -/
  | listing (children : List RedditPost) (after : Option String)
  /-- A JSON array whose elements have `data.children` post lists
  (the two-level shape of a post-permalink `.json` payload). -/
  | array (listings : List (List RedditPost))
  /-- Parses, but has neither of the shapes above. -/
  | badShape
deriving DecidableEq, Repr

/-- What one `await fetch(...)` (plus body read/parse) produces. -/
inductive FetchResult where
  /-- The response arrived: HTTP status, `statusText`, parsed body. -/
  | success (status : Nat) (statusText : String) (body : JsonBody)
  /-- The promise rejected with an exception named `AbortError`. -/
  | abortErr
  /-- The promise rejected with any other exception (network error);
  the string is its `message`. -/
  | netErr (msg : String)
deriving DecidableEq, Repr

/-- The environment of one `fetchPosts` run. -/
structure Env where
  fetchResult : Nat → FetchResult
  aborted : Nat → Bool

/-- Consistency of an environment with the semantics of `AbortSignal`:
the controller is fresh at the start, aborting is permanent, a fetch
started on an aborted signal rejects with `AbortError`, and the flag can
only change across an await that itself rejected with `AbortError`. -/
def EnvConsistent (env : Env) : Prop :=
  env.aborted 0 = false ∧
  (∀ i j, i ≤ j → env.aborted i = true → env.aborted j = true) ∧
  (∀ i, env.aborted i = true → env.fetchResult i = .abortErr) ∧
  (∀ i, env.fetchResult i ≠ .abortErr → env.aborted (i + 1) = env.aborted i)

/-- `response.ok`: HTTP status in the 200-299 range. -/
def responseOk (status : Nat) : Bool :=
  200 ≤ status && status ≤ 299

/-- The query-relevant component state of `src/App.tsx`. -/
structure Query where
  subreddit : String
  sort : String
  activeSearchQuery : String
  activePostUrl : String
deriving DecidableEq, Repr

/-! ## The fetch controller `fetchPosts` (src/App.tsx, lines 66-223) -/

/-- Engagement constant `targetCount = 50` (src/App.tsx line 111). -/
def targetCount : Nat := 50

/-- Engagement constant `minScore = 1500` (src/App.tsx line 112). -/
def minScore : Int := 1500

/-- Engagement constant `minComments = 50` (src/App.tsx line 113). -/
def minComments : Int := 50

/-- Engagement constant `maxPagesToFetch = 5` (src/App.tsx line 114). -/
def maxPagesToFetch : Nat := 5

/-- The engagement filter of src/App.tsx line 146:
`p.is_video && p.score > minScore && p.num_comments > minComments`. -/
def engagementQualifies (p : RedditPost) : Bool :=
  p.is_video && p.score > minScore && p.num_comments > minComments

/-- The validation regex `/reddit\.com\/r\//` of src/App.tsx line 78. -/
def validPostUrl (u : String) : Bool :=
  containsSub u "reddit.com/r/"

/-- URL normalization of src/App.tsx lines 81-82: strip the query
string, strip a trailing slash, append the JSON suffix. -/
def normalizePostUrl (u : String) : String :=
  stripTrailingSlash (beforeQuery u) ++ ".json?raw_json=1"

/-- The page URL built in the engagement loop (src/App.tsx 119-129). -/
def engagementPageUrl (q : Query) (after : Option String) : String :=
  let afterParam := match after with
    | some a => "&after=" ++ a
    | none => ""
  let limitParam := "&limit=100"
  if q.activeSearchQuery ≠ "" then
    "https://www.reddit.com/search.json?q=" ++ encodeURIComponent q.activeSearchQuery ++
      "&sort=top&raw_json=1" ++ limitParam ++ afterParam
  else
    "https://www.reddit.com/r/" ++ q.subreddit ++ "/top.json?t=all&raw_json=1" ++
      limitParam ++ afterParam

/-- The URL built by the standard (non-engagement, non-URL) path
(src/App.tsx lines 163-178). -/
def standardUrl (q : Query) : String :=
  if q.activeSearchQuery ≠ "" then
    if q.sort = "videos" then
      "https://www.reddit.com/search.json?q=" ++
        encodeURIComponent (q.activeSearchQuery ++ " site:v.redd.it") ++
        "&sort=relevance&limit=50&raw_json=1"
    else
      "https://www.reddit.com/search.json?q=" ++ encodeURIComponent q.activeSearchQuery ++
        "&sort=" ++ q.sort ++ "&limit=50&raw_json=1"
  else if q.sort = "videos" then
    "https://www.reddit.com/r/" ++ q.subreddit ++
      "/search.json?q=site%3Av.redd.it&restrict_sr=on&sort=new&limit=50&raw_json=1"
  else
    "https://www.reddit.com/r/" ++ q.subreddit ++ "/" ++ q.sort ++ ".json?limit=50&raw_json=1"

/-- The error message of src/App.tsx lines 134 and 187. -/
def subredditNotFoundMsg (subreddit : String) : String :=
  "Subreddit 'r/" ++ subreddit ++ "' not found or is private."

/-- The error message of src/App.tsx line 79. -/
def invalidUrlMsg : String :=
  "This doesn't look like a valid Reddit post URL."

/-- The error message of src/App.tsx line 86. -/
def urlFetchFailedMsg : String :=
  "Could not fetch the post from the URL. Please check if it's a valid and public Reddit post URL."

/-- The error message of src/App.tsx lines 95 and 198. -/
def invalidJsonMsg : String :=
  "Received an invalid response from Reddit. The API might be temporarily unavailable or blocking requests."

/-- The error message of src/App.tsx line 99. -/
def notAPostMsg : String :=
  "The provided URL does not point to a valid Reddit post."

/-- The error message of src/App.tsx line 203. -/
def badFormatMsg : String :=
  "Received an unexpected data format from Reddit."

/-- The error message of src/App.tsx line 136 for page `n`. -/
def enPageFailMsg (page : Nat) (statusText : String) : String :=
  "Failed to fetch from Reddit (page " ++ toString page ++ "): " ++ statusText

/-- The error message of src/App.tsx line 189. -/
def stdFailMsg (statusText : String) (status : Nat) : String :=
  "Failed to fetch from Reddit: " ++ statusText ++ " (" ++ toString status ++ ")"

/-- An exception flowing to the `catch` block of `fetchPosts`:
either one named `AbortError`, or any other `Error` with its message. -/
inductive Exc where
  | abortE
  | errE (msg : String)
deriving DecidableEq, Repr

/-- Result of the `try` body of `fetchPosts`: on normal completion, the
argument of the late `setPosts` call (if any) and of `setSubreddit` (if
any); `requests` lists the URLs fetched, and `tEnd` counts the awaits
made (the segment in which `catch`/`finally` run). -/
structure CoreOut where
  result : Except Exc (Option (List RedditPost) × Option String)
  requests : List String
  tEnd : Nat
deriving Repr

/-- Result of the engagement `while` loop together with the post-loop
abort check (src/App.tsx lines 117-161): `.ok none` when the check saw
an aborted signal and returned without publishing, `.ok (some l)` when
`setPosts l` ran. -/
structure LoopOut where
  result : Except Exc (Option (List RedditPost))
  requests : List String
  pagesFetched : Nat
deriving Repr

/-- The code after the engagement loop (src/App.tsx lines 156-161):
return nothing if the signal aborted, else publish the collected posts
truncated to `targetCount`. -/
def postLoopPublish (env : Env) (collected : List RedditPost) (t : Nat) :
    Option (List RedditPost) :=
  if env.aborted t then none else some (collected.take targetCount)

/-- The engagement `while` loop of src/App.tsx lines 117-154, started
at `pages` completed fetches with `collected` accumulated posts and
cursor `after`.  Each iteration checks the collected count, the page
safety limit and the abort flag, fetches one page, throws on a non-ok
status (naming the subreddit for a 404 outside a search), breaks on a
missing/empty `data.data.children`, accumulates the qualifying posts,
and breaks when the new cursor is falsy. -/
def engagementLoop (env : Env) (q : Query) (collected : List RedditPost)
    (after : Option String) (pages : Nat) : LoopOut :=
  if h : collected.length < targetCount ∧ pages < maxPagesToFetch ∧
      env.aborted pages = false then
    let url := engagementPageUrl q after
    match env.fetchResult pages with
    | .abortErr => ⟨.error .abortE, [url], pages + 1⟩
    | .netErr m => ⟨.error (.errE m), [url], pages + 1⟩
    | .success status statusText body =>
      if responseOk status then
        match body with
        | .malformed m => ⟨.error (.errE m), [url], pages + 1⟩
        | .listing children after2 =>
          if children.isEmpty then
            ⟨.ok (postLoopPublish env collected (pages + 1)), [url], pages + 1⟩
          else
            let collected2 := collected ++ children.filter engagementQualifies
            if (after2.getD "") = "" then
              ⟨.ok (postLoopPublish env collected2 (pages + 1)), [url], pages + 1⟩
            else
              let rest := engagementLoop env q collected2 after2 (pages + 1)
              ⟨rest.result, url :: rest.requests, rest.pagesFetched⟩
        | _ => ⟨.ok (postLoopPublish env collected (pages + 1)), [url], pages + 1⟩
      else
        if status = 404 ∧ q.activeSearchQuery = "" then
          ⟨.error (.errE (subredditNotFoundMsg q.subreddit)), [url], pages + 1⟩
        else
          ⟨.error (.errE (enPageFailMsg (pages + 1) statusText)), [url], pages + 1⟩
  else
    ⟨.ok (postLoopPublish env collected pages), [], pages⟩
termination_by maxPagesToFetch - pages
decreasing_by simp_wf; omega

/-- The `try` body of `fetchPosts` (src/App.tsx lines 75-207). -/
def fetchPostsCore (q : Query) (env : Env) : CoreOut :=
  if q.activePostUrl ≠ "" then
    -- direct post URL path (lines 77-105)
    if ¬ validPostUrl q.activePostUrl then
      ⟨.error (.errE invalidUrlMsg), [], 0⟩
    else
      let url := normalizePostUrl q.activePostUrl
      match env.fetchResult 0 with
      | .abortErr => ⟨.error .abortE, [url], 1⟩
      | .netErr m => ⟨.error (.errE m), [url], 1⟩
      | .success status _ body =>
        if ¬ responseOk status then
          ⟨.error (.errE urlFetchFailedMsg), [url], 1⟩
        else
          match body with
          | .malformed _ => ⟨.error (.errE invalidJsonMsg), [url], 1⟩
          | .array listings =>
            match listings.headD [] with
            | p :: _ => ⟨.ok (some [p], some p.subreddit), [url], 1⟩
            | [] => ⟨.error (.errE notAPostMsg), [url], 1⟩
          | _ => ⟨.error (.errE notAPostMsg), [url], 1⟩
  else if q.sort = "engagement" then
    -- engagement aggregation path (lines 107-161)
    let lo := engagementLoop env q [] none 0
    ⟨lo.result.map (fun pub => (pub, none)), lo.requests, lo.pagesFetched⟩
  else
    -- standard listing path (lines 163-207)
    let url := standardUrl q
    match env.fetchResult 0 with
    | .abortErr => ⟨.error .abortE, [url], 1⟩
    | .netErr m => ⟨.error (.errE m), [url], 1⟩
    | .success status statusText body =>
      if ¬ responseOk status then
        if status = 404 ∧ q.activeSearchQuery = "" ∧ q.activePostUrl = "" then
          ⟨.error (.errE (subredditNotFoundMsg q.subreddit)), [url], 1⟩
        else
          ⟨.error (.errE (stdFailMsg statusText status)), [url], 1⟩
      else
        match body with
        | .malformed _ => ⟨.error (.errE invalidJsonMsg), [url], 1⟩
        | .listing children _ => ⟨.ok (some children, none), [url], 1⟩
        | _ => ⟨.error (.errE badFormatMsg), [url], 1⟩

/-- The externally visible effects of one `fetchPosts` run.
`published` is the argument of the late `setPosts` call (the initial
`setPosts([])` clear of line 73 is not recorded), `error` the argument
of `setError`, `loadingCleared` whether the `finally` block ran
`setLoading(false)`. -/
structure RunResult where
  requests : List String
  published : Option (List RedditPost)
  newSubreddit : Option String
  error : Option String
  loadingCleared : Bool
deriving Repr

/-- `fetchPosts` (src/App.tsx lines 66-223): the `try` body, the
`catch` that swallows `AbortError` and records any other message, and
the `finally` that clears the loading flag only on a non-aborted
signal. -/
def fetchPosts (q : Query) (env : Env) : RunResult :=
  { requests := (fetchPostsCore q env).requests,
    published :=
      match (fetchPostsCore q env).result with
      | .ok (pub, _) => pub
      | .error _ => none,
    newSubreddit :=
      match (fetchPostsCore q env).result with
      | .ok (_, ns) => ns
      | .error _ => none,
    error :=
      match (fetchPostsCore q env).result with
      | .error (.errE m) => some m
      | _ => none,
    loadingCleared := !(env.aborted (fetchPostsCore q env).tEnd) }

/-! ## Query-state switches (src/App.tsx lines 232-256) -/

/-- `handleSubredditChange` (src/App.tsx lines 232-240): clear the
search query and post URL, set the subreddit, and coerce the
search-only sorts `relevance`/`comments` back to `hot`. -/
def handleSubredditChange (q : Query) (newSubreddit : String) : Query :=
  { subreddit := newSubreddit,
    sort := if q.sort = "relevance" ∨ q.sort = "comments" then "hot" else q.sort,
    activeSearchQuery := "",
    activePostUrl := "" }

/-- `handleSortChange` (src/App.tsx lines 242-244). -/
def handleSortChange (q : Query) (newSort : String) : Query :=
  { q with sort := newSort }

/-- `handleGlobalSearch` (src/App.tsx lines 246-250): clear the post
URL and the subreddit, set the search query; the sort is untouched. -/
def handleGlobalSearch (q : Query) (query : String) : Query :=
  { q with activePostUrl := "", activeSearchQuery := query, subreddit := "" }

/-- `handleUrlSearch` (src/App.tsx lines 252-256): clear the search
query and the subreddit, set the post URL; the sort is untouched. -/
def handleUrlSearch (q : Query) (url : String) : Query :=
  { q with activeSearchQuery := "", subreddit := "", activePostUrl := url }

/-- Whether at most one of the three source kinds of a `Query` is
active (non-empty): subreddit name, free-text search, direct post URL. -/
def atMostOneSource (q : Query) : Prop :=
  (q.subreddit = "" ∧ q.activeSearchQuery = "") ∨
  (q.subreddit = "" ∧ q.activePostUrl = "") ∨
  (q.activeSearchQuery = "" ∧ q.activePostUrl = "")

instance (q : Query) : Decidable (atMostOneSource q) := by
  unfold atMostOneSource; infer_instance

/-! ## The abort-controller replacement protocol (src/App.tsx 64-69, 225-230)

`abortControllerRef` holds the handle of the one in-flight session.
`fetchPosts` begins with `abortControllerRef.current?.abort()` followed
by `abortControllerRef.current = new AbortController()`; the effect
cleanup runs `abortControllerRef.current?.abort()`.  Sessions are
numbered in creation order; `aborts.get? i = some b` says session `i`
exists and has been aborted iff `b`. -/

structure SessionSystem where
  current : Option Nat
  aborts : List Bool
deriving DecidableEq, Repr

/-- The state before the component mounts: no session exists. -/
def initialSessions : SessionSystem := ⟨none, []⟩

/-- `abortControllerRef.current?.abort()`. -/
def abortCurrent (s : SessionSystem) : SessionSystem :=
  match s.current with
  | some i => { s with aborts := s.aborts.set i true }
  | none => s

/-- The first two lines of `fetchPosts` (src/App.tsx 67-68): abort the
outgoing controller, then install a fresh one — in that order. -/
def startFetch (s : SessionSystem) : SessionSystem :=
  let s1 := abortCurrent s
  { current := some s1.aborts.length, aborts := s1.aborts ++ [false] }

/-- The effect cleanup (src/App.tsx 227-229). -/
def effectCleanup (s : SessionSystem) : SessionSystem :=
  abortCurrent s

/-- One query change once mounted: React runs the previous effect's
cleanup, then the new effect calls `fetchPosts`. -/
def queryChange (s : SessionSystem) : SessionSystem :=
  startFetch (effectCleanup s)

/-- The session state after the mount effect and `n` query changes. -/
def mountedSessions : Nat → SessionSystem
  | 0 => startFetch initialSessions
  | n + 1 => queryChange (mountedSessions n)

/-- How many sessions are live (created and not yet aborted). -/
def pendingCount (s : SessionSystem) : Nat :=
  s.aborts.count false

/-- How many sessions `step` newly aborts when applied to `s`. -/
def newlyAborted (s t : SessionSystem) : Nat :=
  (List.range s.aborts.length).countP
    (fun i => s.aborts.getD i true = false ∧ t.aborts.getD i true = true)

/-! ## The proxy endpoint `/api/fetch` (src/server.js lines 24-57) -/

/-- The single header preset of src/server.js lines 31-39. -/
def serverHeaders : List (String × String) :=
  [("Accept", "application/json"),
   ("User-Agent", "RedditPostViewer/1.0 (by /u/reddituser)"),
   ("Accept-Language", "en-US,en;q=0.9"),
   ("Accept-Encoding", "gzip, deflate, br"),
   ("DNT", "1"),
   ("Connection", "keep-alive"),
   ("Upgrade-Insecure-Requests", "1")]

/-- What the proxy's one `fetch(target, ...)` (with the body already
read by `upstream.text()`) produced. -/
inductive UpstreamResult where
  /-- A response: its status and body text. -/
  | success (status : Nat) (body : String)
  /-- `fetch` or `text()` threw; the string is `String(e)`. -/
  | failure (err : String)
deriving DecidableEq, Repr

/-- A response body sent by the proxy: raw text or a JSON error object. -/
inductive ProxyBody where
  | text (s : String)
  | errJson (error : String) (details : Option String)
deriving DecidableEq, Repr

/-- A response sent by the proxy. -/
structure ProxyResponse where
  status : Nat
  body : ProxyBody
deriving DecidableEq, Repr

/-- The `/api/fetch` handler of src/server.js lines 24-57: reject a
missing `url` parameter with 400, otherwise fetch the target once with
the fixed `serverHeaders` preset and relay the upstream status and body
text verbatim — whatever the status — or answer 500 on a thrown
fetch error. -/
def apiFetchProxy (target : Option String) (upstream : UpstreamResult) : ProxyResponse :=
  match target with
  | none => ⟨400, .errJson "Missing url query param" none⟩
  | some _ =>
    match upstream with
    | .success status text => ⟨status, .text text⟩
    | .failure e => ⟨500, .errJson "Proxy fetch failed" (some e)⟩

/-- One attempt of the resolver algorithm that the specification
describes (spec.md section 4.2), as seen from outside: the upstream
response to one header preset, or a transport error. -/
inductive SpecAttempt where
  | response (status : Nat) (body : String)
  | transportError
deriving DecidableEq, Repr

/-- The RSS fallback of the specified algorithm: the re-encoded feed,
or its failure. -/
inductive SpecRss where
  | ok (body : String)
  | failed
deriving DecidableEq, Repr

/-- Modelled from the spec (spec.md section 4.2) for comparison with
`apiFetchProxy`; this algorithm appears nowhere under `src/`.  Try the
header presets in order: accept the first success status; a
non-forbidden failure status stops the traversal and is propagated
immediately; only a 403 moves on to the next preset; when every preset
yields 403 or a transport error, fall back to the RSS re-encoding, and
if that also fails answer a distinct "all strategies exhausted" error. -/
def upstreamResolverSpec (attempts : List SpecAttempt) (rss : SpecRss) : ProxyResponse :=
  match attempts with
  | [] =>
    match rss with
    | .ok body => ⟨200, .text body⟩
    | .failed => ⟨502, .errJson "All request strategies exhausted" none⟩
  | a :: rest =>
    match a with
    | .response status body =>
      if responseOk status then ⟨status, .text body⟩
      else if status = 403 then upstreamResolverSpec rest rss
      else ⟨status, .text body⟩
    | .transportError => upstreamResolverSpec rest rss

/-! ## The video download path (src/components/PostCard.tsx 62-105) -/

/-- A `Representation` element of a DASH manifest as the code queries
it: the `bandwidth` attribute (absent modelled as `none`) and the text
contents of its `BaseURL` descendants in document order. -/
structure DashRep where
  bandwidth : Option String
  baseURLs : List String
deriving DecidableEq, Repr

/-- An `AdaptationSet` element: its `contentType` attribute, its
`Representation` children, and the text contents of all of its
`BaseURL` descendants in document order (the code queries these two
element lists independently). -/
structure AdaptationSet where
  contentType : Option String
  representations : List DashRep
  baseURLs : List String
deriving DecidableEq, Repr

/-- A parsed DASH manifest: its `AdaptationSet` elements. -/
structure DashDoc where
  adaptationSets : List AdaptationSet
deriving DecidableEq, Repr

/-- JS `parseInt(s, 10)`: skip whitespace, optional sign, then the
leading digit run; `none` models `NaN`. -/
def jsParseInt (s : String) : Option Int :=
  let cs := s.data.dropWhile (fun c => c.isWhitespace)
  let signed : Int × List Char :=
    match cs with
    | c :: rest => if c = '-' then (-1, rest) else if c = '+' then (1, rest) else (1, cs)
    | [] => (1, [])
  let ds := signed.2.takeWhile (fun c => c.isDigit)
  if ds.isEmpty then none
  else some (signed.1 * (ds.foldl (fun n c => n * 10 + (c.toNat - 48)) 0 : Nat))

/-- The sort key of src/components/PostCard.tsx line 80:
`parseInt(rep.getAttribute('bandwidth') || '0', 10)`.  A missing or
empty attribute is falsy, so it falls back to `'0'`. -/
def bwKey (r : DashRep) : Option Int :=
  let s := r.bandwidth.getD ""
  jsParseInt (if s = "" then "0" else s)

/-- The numeric value the sort effectively compares, for well-formed
(non-`NaN`) keys. -/
def bwVal (r : DashRep) : Int := (bwKey r).getD 0

/-- Whether the comparator `(a, b) => keyB - keyA` orders `a` strictly
before `b`; when a key is `NaN` the comparator returns `NaN`, which the
sort treats like 0 (keep the relative order). -/
def repBefore (a b : DashRep) : Bool :=
  match bwKey a, bwKey b with
  | some x, some y => decide (y < x)
  | _, _ => false

/-- Stable insertion of a later element: it passes exactly the elements
it must precede. -/
def insertRep (x : DashRep) : List DashRep → List DashRep
  | [] => [x]
  | y :: ys => if repBefore x y then x :: y :: ys else y :: insertRep x ys

/-- The stable sort `videoReps.sort((a, b) => bandwidthB - bandwidthA)`
of src/components/PostCard.tsx line 80 (JS `Array.prototype.sort` is
stable, and a stable sort is determined by the comparator). -/
def jsSortByBandwidthDesc (l : List DashRep) : List DashRep :=
  l.foldl (fun acc x => insertRep x acc) []

/-- `xmlDoc`'s video `AdaptationSet` lookup (PostCard.tsx line 78). -/
def videoSetOf (doc : DashDoc) : Option AdaptationSet :=
  doc.adaptationSets.find? (fun s => s.contentType = some "video/mp4")

/-- `videoReps` (PostCard.tsx line 79). -/
def videoRepsOf (doc : DashDoc) : List DashRep :=
  match videoSetOf doc with
  | some s => s.representations
  | none => []

/-- `videoBaseUrl` (PostCard.tsx lines 80-81): the first `BaseURL` of
the top representation after the descending bandwidth sort. -/
def videoBaseUrlOf (doc : DashDoc) : Option String :=
  (jsSortByBandwidthDesc (videoRepsOf doc)).head?.bind (fun r => r.baseURLs.head?)

/-- `audioBaseUrl` (PostCard.tsx lines 84-85): the first `BaseURL`
descendant of the audio `AdaptationSet`. -/
def audioBaseUrlOf (doc : DashDoc) : Option String :=
  (doc.adaptationSets.find? (fun s => s.contentType = some "audio/mp4")).bind
    (fun s => s.baseURLs.head?)

/-- JS truthiness of a string-or-missing value (`undefined`, `null`
and `""` are falsy). -/
def jsTruthyOpt (o : Option String) : Bool :=
  o.getD "" ≠ ""

/-- `dashUrl.substring(0, dashUrl.lastIndexOf('/') + 1)` (PostCard.tsx
line 88): everything up to and including the last slash, or `""` when
there is none. -/
def baseUrlPath (dashUrl : String) : String :=
  ⟨(dashUrl.data.reverse.dropWhile (fun c => c ≠ '/')).reverse⟩

/-- The merge-service redirect URL (PostCard.tsx line 93). -/
def mergeServiceUrl (redditPostUrl fullVideoUrl fullAudioUrl : String) : String :=
  "https://sd.redditsave.com/download.php?permalink=" ++ encodeURIComponent redditPostUrl ++
    "&video_url=" ++ encodeURIComponent fullVideoUrl ++
    "&audio_url=" ++ encodeURIComponent fullAudioUrl

/-- The fallback downloader URL (PostCard.tsx line 103). -/
def fallbackDownloaderUrl (redditPostUrl : String) : String :=
  "https://rapidsave.com/?url=" ++ encodeURIComponent redditPostUrl

/-- `proceedWithVideoDownload` (src/components/PostCard.tsx lines
62-105).  `manifest` is the outcome of fetching and parsing the DASH
manifest (`.error` when the fetch/text step threw; `DOMParser` itself
never throws).  The result is the URL the function opens, `none` when
it returns without opening one (no `videoUrl`). -/
def proceedWithVideoDownload (post : RedditPost) (manifest : Except String DashDoc) :
    Option String :=
  let videoUrl : Option String :=
    if post.is_video then post.media.map (fun m => m.fallback_url) else none
  match videoUrl with
  | none => none
  | some _ =>
    let redditPostUrl := "https://www.reddit.com" ++ post.permalink
    let dashUrl := (post.media.map (fun m => m.dash_url)).getD ""
    if dashUrl ≠ "" then
      match manifest with
      | .error _ => some (fallbackDownloaderUrl redditPostUrl)
      | .ok doc =>
        if jsTruthyOpt (videoBaseUrlOf doc) && jsTruthyOpt (audioBaseUrlOf doc) then
          some (mergeServiceUrl redditPostUrl
            (baseUrlPath dashUrl ++ (videoBaseUrlOf doc).getD "")
            (baseUrlPath dashUrl ++ (audioBaseUrlOf doc).getD ""))
        else
          some (fallbackDownloaderUrl redditPostUrl)
    else
      some (fallbackDownloaderUrl redditPostUrl)

/-- The qualifying posts accumulated by the engagement loop over the
first `m` pages of a run whose page `i` has children `ch i`. -/
def qualifyingAccum (ch : Nat → List RedditPost) (m : Nat) : List RedditPost :=
  (((List.range m).map (fun i => (ch i).filter engagementQualifies))).flatten

/-! ## Concrete inputs used to instantiate the theorems -/

/-- A qualifying video post: video, score over 1500, comments over 50. -/
def wVid : RedditPost :=
  { mkPost with is_video := true, score := 2000, num_comments := 60 }

/-- Children of every page in the two-page witness run. -/
def wCh : Nat → List RedditPost := fun _ => [wVid, mkPost]

/-- Cursors of the witness run: one more page after page 0, then none. -/
def wAf : Nat → Option String := fun i => if i = 0 then some "t3_b" else none

/-- Environment of a two-page engagement run that is never aborted. -/
def wEnvPages : Env :=
  ⟨fun i => .success 200 "OK" (.listing (wCh i) (wAf i)), fun _ => false⟩

/-- Environment answering 200 with an unusable body, never aborted. -/
def wEnvPlain : Env :=
  ⟨fun _ => .success 200 "OK" .badShape, fun _ => false⟩

/-- Environment answering 404, never aborted. -/
def wEnv404 : Env :=
  ⟨fun _ => .success 404 "Not Found" .badShape, fun _ => false⟩

/-- Environment whose signal aborts during the first fetch. -/
def wEnvAbort : Env :=
  ⟨fun _ => .abortErr, fun n => decide (1 ≤ n)⟩

/-- A concrete `reddit_video` descriptor with a DASH manifest URL. -/
def wRedditVideo : RedditVideo :=
  { fallback_url := "https://v.redd.it/x/DASH_720.mp4", hls_url := "",
    dash_url := "https://v.redd.it/x/DASHPlaylist.mpd", duration := 10,
    height := 720, width := 1280, is_gif := false }

/-- A concrete video post. -/
def wVideoPost : RedditPost :=
  { mkPost with is_video := true, media := some wRedditVideo }

/-- A concrete parsed DASH manifest with two video representations and
one audio stream. -/
def wDashDoc : DashDoc :=
  ⟨[⟨some "video/mp4",
      [⟨some "1000000", ["DASH_480.mp4"]⟩, ⟨some "2000000", ["DASH_720.mp4"]⟩],
      ["DASH_480.mp4", "DASH_720.mp4"]⟩,
    ⟨some "audio/mp4", [], ["DASH_AUDIO_128.mp4"]⟩]⟩

/-! ## Structural lemmas about the engagement loop -/

theorem qualifyingAccum_succ (ch : Nat → List RedditPost) (m : Nat) :
    qualifyingAccum ch (m + 1) =
      qualifyingAccum ch m ++ (ch m).filter engagementQualifies := by
  simp [qualifyingAccum, List.range_succ]

theorem qualifyingAccum_zero (ch : Nat → List RedditPost) :
    qualifyingAccum ch 0 = [] := by
  simp [qualifyingAccum]

/-- The number of awaits the loop performs is the number of requests
it makes. -/
theorem engagementLoop_pages_eq (env : Env) (q : Query) :
    ∀ (collected : List RedditPost) (after : Option String) (pages : Nat),
      (engagementLoop env q collected after pages).pagesFetched =
        pages + (engagementLoop env q collected after pages).requests.length := by
  intro collected after pages
  induction collected, after, pages using engagementLoop.induct env q with
  | case1 c a p hg hf => rw [engagementLoop]; simp [hg, hf]
  | case2 c a p hg m hf => rw [engagementLoop]; simp [hg, hf]
  | case3 c a p hg status stx hok m hf => rw [engagementLoop]; simp [hg, hf, hok]
  | case4 c a p hg status stx hok ch2 af2 hempty hf =>
    rw [engagementLoop]; simp [hg, hf, hok, hempty]
  | case5 c a p hg status stx hok ch2 af2 hnempty hafter hf =>
    rw [engagementLoop]; simp [hg, hf, hok, hnempty, hafter]
  | case6 c a p hg status stx hok ch2 af2 hnempty c2 hafter hf ih =>
    rw [engagementLoop]; simp [hg, hf, hok, hnempty, hafter, c2, ih]; omega
  | case7 c a p hg status stx body hf hok hnm hnl =>
    rw [engagementLoop]
    simp only [hg, hf, hok, dite_true, if_true]
    rcases body with m | ⟨ch2, af2⟩ | ls | _
    · exact absurd rfl (hnm _)
    · exact absurd rfl (hnl _ _)
    · simp
    · simp
  | case8 c a p hg status stx body hf hnok h404 =>
    rw [engagementLoop]; simp [hg, hf, hnok, h404, responseOk]
  | case9 c a p hg status stx body hf hnok hn404 =>
    rw [engagementLoop]; simp [hg, hf, hnok, hn404]
  | case10 c a p hg => rw [engagementLoop]; simp [hg]

/-- The loop never exceeds the page safety limit, and never rolls the
page counter back. -/
theorem engagementLoop_pages_bounds (env : Env) (q : Query) :
    ∀ (collected : List RedditPost) (after : Option String) (pages : Nat),
      pages ≤ (engagementLoop env q collected after pages).pagesFetched ∧
      (pages ≤ maxPagesToFetch →
        (engagementLoop env q collected after pages).pagesFetched ≤ maxPagesToFetch) := by
  intro collected after pages
  induction collected, after, pages using engagementLoop.induct env q with
  | case1 c a p hg hf => rw [engagementLoop]; simp [hg, hf]; omega
  | case2 c a p hg m hf => rw [engagementLoop]; simp [hg, hf]; omega
  | case3 c a p hg status stx hok m hf => rw [engagementLoop]; simp [hg, hf, hok]; omega
  | case4 c a p hg status stx hok ch2 af2 hempty hf =>
    rw [engagementLoop]; simp [hg, hf, hok, hempty]; omega
  | case5 c a p hg status stx hok ch2 af2 hnempty hafter hf =>
    rw [engagementLoop]; simp [hg, hf, hok, hnempty, hafter]; omega
  | case6 c a p hg status stx hok ch2 af2 hnempty c2 hafter hf ih =>
    rw [engagementLoop]; simp [hg, hf, hok, hnempty, hafter, c2] at ih ⊢; omega
  | case7 c a p hg status stx body hf hok hnm hnl =>
    rw [engagementLoop]
    simp only [hg, hf, hok, dite_true, if_true, and_self, dite_eq_ite]
    rcases body with m | ⟨ch2, af2⟩ | ls | _
    · exact absurd rfl (hnm _)
    · exact absurd rfl (hnl _ _)
    · simp; omega
    · simp; omega
  | case8 c a p hg status stx body hf hnok h404 =>
    rw [engagementLoop]; simp [hg, hf, hnok, h404, responseOk]; omega
  | case9 c a p hg status stx body hf hnok hn404 =>
    rw [engagementLoop]; simp [hg, hf, hnok, hn404]; omega
  | case10 c a p hg => rw [engagementLoop]; simp [hg]

/-- Once the signal reads aborted at await index `i`, the loop never
fetches page `i` or any later page: the flag is checked before each
page fetch. -/
theorem engagementLoop_abort_le (env : Env) (q : Query) :
    ∀ (collected : List RedditPost) (after : Option String) (pages i : Nat),
      pages ≤ i → env.aborted i = true →
      (engagementLoop env q collected after pages).pagesFetched ≤ i := by
  intro collected after pages
  induction collected, after, pages using engagementLoop.induct env q with
  | case1 c a p hg hf =>
    intro i hpi hab
    have hlt : p < i := by
      rcases Nat.lt_or_ge p i with h | h
      · exact h
      · have : p = i := by omega
        rw [this] at hg; rw [hg.2.2] at hab; cases hab
    rw [engagementLoop]; simp [hg, hf]; omega
  | case2 c a p hg m hf =>
    intro i hpi hab
    have hlt : p < i := by
      rcases Nat.lt_or_ge p i with h | h
      · exact h
      · have : p = i := by omega
        rw [this] at hg; rw [hg.2.2] at hab; cases hab
    rw [engagementLoop]; simp [hg, hf]; omega
  | case3 c a p hg status stx hok m hf =>
    intro i hpi hab
    have hlt : p < i := by
      rcases Nat.lt_or_ge p i with h | h
      · exact h
      · have : p = i := by omega
        rw [this] at hg; rw [hg.2.2] at hab; cases hab
    rw [engagementLoop]; simp [hg, hf, hok]; omega
  | case4 c a p hg status stx hok ch2 af2 hempty hf =>
    intro i hpi hab
    have hlt : p < i := by
      rcases Nat.lt_or_ge p i with h | h
      · exact h
      · have : p = i := by omega
        rw [this] at hg; rw [hg.2.2] at hab; cases hab
    rw [engagementLoop]; simp [hg, hf, hok, hempty]; omega
  | case5 c a p hg status stx hok ch2 af2 hnempty hafter hf =>
    intro i hpi hab
    have hlt : p < i := by
      rcases Nat.lt_or_ge p i with h | h
      · exact h
      · have : p = i := by omega
        rw [this] at hg; rw [hg.2.2] at hab; cases hab
    rw [engagementLoop]; simp [hg, hf, hok, hnempty, hafter]; omega
  | case6 c a p hg status stx hok ch2 af2 hnempty c2 hafter hf ih =>
    intro i hpi hab
    have hlt : p < i := by
      rcases Nat.lt_or_ge p i with h | h
      · exact h
      · have : p = i := by omega
        rw [this] at hg; rw [hg.2.2] at hab; cases hab
    have := ih i (by omega) hab
    rw [engagementLoop]; simp [hg, hf, hok, hnempty, hafter, c2] at this ⊢; omega
  | case7 c a p hg status stx body hf hok hnm hnl =>
    intro i hpi hab
    have hlt : p < i := by
      rcases Nat.lt_or_ge p i with h | h
      · exact h
      · have : p = i := by omega
        rw [this] at hg; rw [hg.2.2] at hab; cases hab
    rw [engagementLoop]
    simp only [hg, hf, hok, dite_true, if_true, and_self, dite_eq_ite]
    rcases body with m | ⟨ch2, af2⟩ | ls | _
    · exact absurd rfl (hnm _)
    · exact absurd rfl (hnl _ _)
    · simp; omega
    · simp; omega
  | case8 c a p hg status stx body hf hnok h404 =>
    intro i hpi hab
    have hlt : p < i := by
      rcases Nat.lt_or_ge p i with h | h
      · exact h
      · have : p = i := by omega
        rw [this] at hg; rw [hg.2.2] at hab; cases hab
    rw [engagementLoop]; simp [hg, hf, hnok, h404, responseOk]; omega
  | case10 c a p hg =>
    intro i hpi hab
    rw [engagementLoop]; simp [hg]; omega
  | case9 c a p hg status stx body hf hnok hn404 =>
    intro i hpi hab
    have hlt : p < i := by
      rcases Nat.lt_or_ge p i with h | h
      · exact h
      · have : p = i := by omega
        rw [this] at hg; rw [hg.2.2] at hab; cases hab
    rw [engagementLoop]; simp [hg, hf, hnok, hn404]; omega

/-- If the signal reads aborted in the segment in which the loop (and
its post-loop check) finishes, the run publishes nothing and raises no
message: the only possible outcomes are the silent post-loop return and
the swallowed `AbortError`.  Needs only the law that the abort flag
cannot change across a successfully completed await. -/
theorem engagementLoop_aborted_end (env : Env) (q : Query)
    (hres : ∀ j, env.fetchResult j ≠ .abortErr →
      env.aborted (j + 1) = env.aborted j) :
    ∀ (collected : List RedditPost) (after : Option String) (pages : Nat),
      env.aborted (engagementLoop env q collected after pages).pagesFetched = true →
      (engagementLoop env q collected after pages).result = .ok none ∨
      (engagementLoop env q collected after pages).result = .error .abortE := by
  intro collected after pages
  induction collected, after, pages using engagementLoop.induct env q with
  | case1 c a p hg hf =>
    intro _; rw [engagementLoop]; simp [hg, hf]
  | case2 c a p hg m hf =>
    intro hab
    rw [engagementLoop] at hab ⊢
    simp [hg, hf] at hab
    have := hres p (by rw [hf]; simp)
    rw [this, hg.2.2] at hab; cases hab
  | case3 c a p hg status stx hok m hf =>
    intro hab
    rw [engagementLoop] at hab ⊢
    simp [hg, hf, hok] at hab
    have := hres p (by rw [hf]; simp)
    rw [this, hg.2.2] at hab; cases hab
  | case4 c a p hg status stx hok ch2 af2 hempty hf =>
    intro hab
    rw [engagementLoop] at hab ⊢
    simp [hg, hf, hok, hempty] at hab
    simp [hg, hf, hok, hempty, postLoopPublish, hab]
  | case5 c a p hg status stx hok ch2 af2 hnempty hafter hf =>
    intro hab
    rw [engagementLoop] at hab ⊢
    simp [hg, hf, hok, hnempty, hafter] at hab
    simp [hg, hf, hok, hnempty, hafter, postLoopPublish, hab]
  | case6 c a p hg status stx hok ch2 af2 hnempty c2 hafter hf ih =>
    intro hab
    rw [engagementLoop] at hab ⊢
    simp [hg, hf, hok, hnempty, hafter, c2] at hab ⊢
    exact ih hab
  | case7 c a p hg status stx body hf hok hnm hnl =>
    intro hab
    rw [engagementLoop] at hab ⊢
    simp only [hg, hf, hok, dite_true, if_true, and_self, dite_eq_ite] at hab ⊢
    rcases body with m | ⟨ch2, af2⟩ | ls | _
    · exact absurd rfl (hnm _)
    · exact absurd rfl (hnl _ _)
    · simp [postLoopPublish, hab]
    · simp [postLoopPublish, hab]
  | case8 c a p hg status stx body hf hnok h404 =>
    intro hab
    rw [engagementLoop] at hab ⊢
    simp [hg, hf, hnok, h404, responseOk] at hab
    have := hres p (by rw [hf]; simp)
    rw [this, hg.2.2] at hab; cases hab
  | case9 c a p hg status stx body hf hnok hn404 =>
    intro hab
    rw [engagementLoop] at hab ⊢
    simp [hg, hf, hnok, hn404] at hab
    have := hres p (by rw [hf]; simp)
    rw [this, hg.2.2] at hab; cases hab
  | case10 c a p hg =>
    intro hab
    rw [engagementLoop] at hab ⊢
    simp [hg] at hab
    simp [hg, postLoopPublish, hab]

/-- Full characterization of a normal engagement run: the environment
never aborts and every page fetch succeeds with an ok listing of
non-empty children `ch i` and cursor `af i`.  Started at page `pages`
with exactly the qualifying posts of the first `pages` pages collected,
the loop publishes the qualifying accumulation of the pages it consumed
truncated to `targetCount`; it consumed at least one more page when it
could, it stopped only because the target count was reached, the page
safety limit was hit or the cursor went missing, the continuation
condition held at every earlier page, and it requested only engagement
page URLs. -/
theorem engagementLoop_normal (env : Env) (q : Query)
    (st : Nat → Nat) (stx : Nat → String)
    (ch : Nat → List RedditPost) (af : Nat → Option String)
    (hab : ∀ i, env.aborted i = false)
    (hresp : ∀ i, env.fetchResult i = .success (st i) (stx i) (.listing (ch i) (af i)))
    (hsok : ∀ i, responseOk (st i) = true)
    (hne : ∀ i, ch i ≠ []) :
    ∀ (collected : List RedditPost) (after : Option String) (pages : Nat),
      collected = qualifyingAccum ch pages → pages ≤ maxPagesToFetch →
      (engagementLoop env q collected after pages).result =
        .ok (some ((qualifyingAccum ch
          (engagementLoop env q collected after pages).pagesFetched).take targetCount)) ∧
      (collected.length < targetCount → pages < maxPagesToFetch →
        pages < (engagementLoop env q collected after pages).pagesFetched) ∧
      (targetCount ≤ (qualifyingAccum ch
          (engagementLoop env q collected after pages).pagesFetched).length ∨
        (engagementLoop env q collected after pages).pagesFetched = maxPagesToFetch ∨
        ((af ((engagementLoop env q collected after pages).pagesFetched - 1)).getD "") = "") ∧
      (∀ m, pages ≤ m → m < (engagementLoop env q collected after pages).pagesFetched →
        (qualifyingAccum ch m).length < targetCount ∧
        (pages < m → ((af (m - 1)).getD "") ≠ "")) ∧
      (∀ u ∈ (engagementLoop env q collected after pages).requests,
        ∃ a2, u = engagementPageUrl q a2) := by
  intro collected after pages
  induction collected, after, pages using engagementLoop.induct env q with
  | case1 c a p hg hf =>
    intro _ _; exfalso; rw [hresp p] at hf; simp at hf
  | case2 c a p hg m hf =>
    intro _ _; exfalso; rw [hresp p] at hf; simp at hf
  | case3 c a p hg status stx2 hok m hf =>
    intro _ _; exfalso; rw [hresp p] at hf; simp at hf
  | case4 c a p hg status stx2 hok ch2 af2 hempty hf =>
    intro _ _; exfalso
    have heq := (hresp p).symm.trans hf
    simp only [FetchResult.success.injEq, JsonBody.listing.injEq] at heq
    have : ch p = [] := by
      rw [heq.2.2.1]; exact List.isEmpty_iff.mp hempty
    exact hne p this
  | case5 c a p hg status stx2 hok ch2 af2 hnempty hafter hf =>
    intro hc hp
    have heq := (hresp p).symm.trans hf
    simp only [FetchResult.success.injEq, JsonBody.listing.injEq] at heq
    obtain ⟨-, -, hch, haf⟩ := heq
    rw [engagementLoop]
    simp only [hg, and_self, dite_true, hf, hok, if_true]
    rw [if_neg hnempty, if_pos hafter]
    refine ⟨?_, ?_, ?_, ?_, ?_⟩
    · simp only [postLoopPublish, hab (p + 1), Bool.false_eq_true, if_false]
      rw [hc, ← hch, ← qualifyingAccum_succ]
    · intro _ _; simp
    · right; right
      simp only [Nat.add_sub_cancel]
      rw [haf]; exact hafter
    · intro m hpm hm
      simp only at hm
      have hmp : m = p := by omega
      subst hmp
      exact ⟨by rw [← hc]; exact hg.1, by intro hlt; omega⟩
    · intro u hu
      simp only [List.mem_singleton] at hu
      exact ⟨a, hu⟩
  | case6 c a p hg status stx2 hok ch2 af2 hnempty c2 hafter hf ih =>
    intro hc hp
    have heq := (hresp p).symm.trans hf
    simp only [FetchResult.success.injEq, JsonBody.listing.injEq] at heq
    obtain ⟨-, -, hch, haf⟩ := heq
    have hcc : c2 = c ++ List.filter engagementQualifies ch2 := rfl
    have hc2 : c2 = qualifyingAccum ch (p + 1) := by
      rw [hcc, hc, ← hch, qualifyingAccum_succ]
    have hp2 : p + 1 ≤ maxPagesToFetch := hg.2.1
    have ihx := ih hc2 hp2
    rw [hcc] at ihx
    obtain ⟨ih1, ih2, ih3, ih4, ih5⟩ := ihx
    rw [engagementLoop]
    simp only [hg, and_self, dite_true, hf, hok, if_true]
    rw [if_neg hnempty, if_neg hafter]
    refine ⟨ih1, ?_, ih3, ?_, ?_⟩
    · intro _ _
      have h1 := (engagementLoop_pages_bounds env q
        (c ++ List.filter engagementQualifies ch2) af2 (p + 1)).1
      simp only at h1 ⊢; omega
    · intro m hpm hm
      simp only at hm
      rcases Nat.eq_or_lt_of_le hpm with hmp | hmp
      · subst hmp
        exact ⟨by rw [← hc]; exact hg.1, by intro h; omega⟩
      · have hge : p + 1 ≤ m := hmp
        obtain ⟨hlen, hcur⟩ := ih4 m hge hm
        refine ⟨hlen, fun _ => ?_⟩
        rcases Nat.eq_or_lt_of_le hge with hm1 | hm1
        · rw [← hm1]
          simp only [Nat.add_sub_cancel]
          rw [haf]; exact hafter
        · exact hcur (by omega)
    · intro u hu
      simp only [List.mem_cons] at hu
      rcases hu with hu | hu
      · exact ⟨a, hu⟩
      · exact ih5 u hu
  | case7 c a p hg status stx2 body hf hok hnm hnl =>
    intro _ _; exfalso
    have heq := (hresp p).symm.trans hf
    simp only [FetchResult.success.injEq] at heq
    exact hnl (ch p) (af p) heq.2.2.symm
  | case8 c a p hg status stx2 body hf hnok h404 =>
    intro _ _; exfalso
    have heq := (hresp p).symm.trans hf
    simp only [FetchResult.success.injEq] at heq
    rw [← heq.1] at hnok
    exact hnok (hsok p)
  | case9 c a p hg status stx2 body hf hnok hn404 =>
    intro _ _; exfalso
    have heq := (hresp p).symm.trans hf
    simp only [FetchResult.success.injEq] at heq
    rw [← heq.1] at hnok
    exact hnok (hsok p)
  | case10 c a p hg =>
    intro hc hp
    rw [engagementLoop]
    simp only [hg, dite_false, if_false]
    have hstop : ¬(c.length < targetCount ∧ p < maxPagesToFetch) := by
      intro hcon
      exact hg ⟨hcon.1, hcon.2, hab p⟩
    refine ⟨?_, ?_, ?_, ?_, ?_⟩
    · simp only [postLoopPublish, hab p, Bool.false_eq_true, if_false, hc]
    · intro h1 h2; exact absurd ⟨h1, h2⟩ hstop
    · rcases Nat.lt_or_ge c.length targetCount with hlen | hlen
      · right; left
        rcases Nat.lt_or_ge p maxPagesToFetch with hpp | hpp
        · exact absurd ⟨hlen, hpp⟩ hstop
        · omega
      · left; rw [hc] at hlen; exact hlen
    · intro m hpm hm
      have hm2 : m < p := by simpa using hm
      omega
    · intro u hu; exact absurd hu (by simp)

/-! ## Projections of `fetchPosts` through its catch/finally wrapper -/

theorem fetchPosts_requests (q : Query) (env : Env) :
    (fetchPosts q env).requests = (fetchPostsCore q env).requests := rfl

theorem fetchPosts_loadingCleared (q : Query) (env : Env) :
    (fetchPosts q env).loadingCleared = !(env.aborted (fetchPostsCore q env).tEnd) := rfl

theorem fetchPosts_error_eq (q : Query) (env : Env) (m : String) :
    (fetchPosts q env).error = some m ↔
      (fetchPostsCore q env).result = .error (.errE m) := by
  unfold fetchPosts
  cases h : (fetchPostsCore q env).result with
  | ok pr => rcases pr with ⟨pub, ns⟩; simp [h]
  | error e => rcases e with _ | m2 <;> simp [h]

theorem fetchPosts_error_none (q : Query) (env : Env) :
    (fetchPosts q env).error = none ↔
      ∀ m, (fetchPostsCore q env).result ≠ .error (.errE m) := by
  unfold fetchPosts
  cases h : (fetchPostsCore q env).result with
  | ok pr => rcases pr with ⟨pub, ns⟩; simp [h]
  | error e => rcases e with _ | m2 <;> simp [h]

theorem fetchPosts_published_eq (q : Query) (env : Env) (l : List RedditPost) :
    (fetchPosts q env).published = some l ↔
      ∃ ns, (fetchPostsCore q env).result = .ok (some l, ns) := by
  unfold fetchPosts
  cases h : (fetchPostsCore q env).result with
  | ok pr => rcases pr with ⟨pub, ns⟩; simp [h]
  | error e => rcases e with _ | m2 <;> simp [h]

theorem fetchPosts_published_none (q : Query) (env : Env) :
    (fetchPosts q env).published = none ↔
      ∀ l ns, (fetchPostsCore q env).result ≠ .ok (some l, ns) := by
  unfold fetchPosts
  cases h : (fetchPostsCore q env).result with
  | ok pr =>
    rcases pr with ⟨pub, ns⟩
    rcases pub with _ | l2 <;> simp [h]
  | error e => rcases e with _ | m2 <;> simp [h]

/-- A 404 reaching any iteration of the engagement loop outside a
search produces the subreddit-naming error. -/
theorem engagementLoop_404 (env : Env) (q : Query)
    (collected : List RedditPost) (after : Option String) (pages : Nat)
    (stx : String) (body : JsonBody)
    (hlen : collected.length < targetCount) (hpage : pages < maxPagesToFetch)
    (hab : env.aborted pages = false)
    (hf : env.fetchResult pages = .success 404 stx body)
    (hsearch : q.activeSearchQuery = "") :
    (engagementLoop env q collected after pages).result =
      .error (.errE (subredditNotFoundMsg q.subreddit)) := by
  rw [engagementLoop]
  simp [hlen, hpage, hab, hf, hsearch, responseOk]

/-- Every path of the try body performs exactly one await per recorded
request URL. -/
theorem fetchPostsCore_tEnd (q : Query) (env : Env) :
    (fetchPostsCore q env).tEnd = (fetchPostsCore q env).requests.length := by
  unfold fetchPostsCore
  by_cases hurl : q.activePostUrl = ""
  · simp only [hurl, ne_eq, not_true_eq_false, if_false, ite_not]
    by_cases hsort : q.sort = "engagement"
    · simp only [hsort, if_true, ite_true]
      have h := engagementLoop_pages_eq env q [] none 0
      simp only [Nat.zero_add] at h
      simpa using h
    · simp only [hsort, if_false, ite_false]
      rcases h0 : env.fetchResult 0 with ⟨status, sx, body⟩ | _ | m
      · simp only [h0]
        repeat' split
        all_goals rfl
      · rfl
      · rfl
  · simp only [hurl, ne_eq, not_false_eq_true, if_true, ite_not, ite_false]
    split
    · rcases h0 : env.fetchResult 0 with ⟨status, sx, body⟩ | _ | m
      · simp only [h0]
        repeat' split
        all_goals rfl
      · rfl
      · rfl
    · rfl

/-! ## Claim theorems -/

/-- C9: a cancelled (aborted) fetch session leaves the loading flag
unchanged — the `finally` cleanup of `fetchPosts` clears the loading
flag exactly when the session's signal is not aborted at the end of the
run, so a superseded session never clobbers the loading indicator of
the session that replaced it. -/
theorem c9_loading_flag_frame (q : Query) (env : Env) :
    (fetchPosts q env).loadingCleared =
      !(env.aborted ((fetchPosts q env).requests.length)) := by
  rw [fetchPosts_loadingCleared, fetchPosts_requests, fetchPostsCore_tEnd]

/-- C5: with a direct post URL set, a URL failing the permalink-shape
test fails immediately with the descriptive validation message and
issues zero network requests; a URL passing it is normalized (query
string stripped, trailing slash stripped, JSON suffix appended) and
exactly one request, to exactly that URL, is issued. -/
theorem c5_direct_url_validation (q : Query) (env : Env)
    (hurl : q.activePostUrl ≠ "") :
    (validPostUrl q.activePostUrl = false →
      (fetchPosts q env).requests = [] ∧
      (fetchPosts q env).error = some invalidUrlMsg ∧
      (fetchPosts q env).published = none) ∧
    (validPostUrl q.activePostUrl = true →
      (fetchPosts q env).requests = [normalizePostUrl q.activePostUrl]) := by
  constructor
  · intro hv
    have hc : fetchPostsCore q env = ⟨.error (.errE invalidUrlMsg), [], 0⟩ := by
      unfold fetchPostsCore
      simp [hurl, hv]
    simp [fetchPosts, hc]
  · intro hv
    rw [fetchPosts_requests]
    unfold fetchPostsCore
    simp only [hurl, ne_eq, not_false_eq_true, if_true, ite_not, ite_false]
    rw [if_pos (by simp [hv])]
    rcases h0 : env.fetchResult 0 with ⟨status, sx, body⟩ | _ | m
    · simp only [h0]
      repeat' split
      all_goals rfl
    · rfl
    · rfl

/-- Witness for C5 at two concrete URLs: a rejected garbage URL and an
accepted permalink with a query string and trailing slash. -/
theorem c5_direct_url_validation_witness :
    ((Query.mk "" "hot" "" "nonsense").activePostUrl ≠ "" ∧
      ((fetchPosts (Query.mk "" "hot" "" "nonsense") wEnvPlain).requests = [] ∧
        (fetchPosts (Query.mk "" "hot" "" "nonsense") wEnvPlain).error = some invalidUrlMsg ∧
        (fetchPosts (Query.mk "" "hot" "" "nonsense") wEnvPlain).published = none)) ∧
    ((Query.mk "" "hot" "" "https://www.reddit.com/r/cats/comments/abc/title/?utm=1").activePostUrl ≠ "" ∧
      (fetchPosts (Query.mk "" "hot" "" "https://www.reddit.com/r/cats/comments/abc/title/?utm=1")
          wEnvPlain).requests =
        ["https://www.reddit.com/r/cats/comments/abc/title.json?raw_json=1"]) :=
  ⟨⟨by decide,
    (c5_direct_url_validation (Query.mk "" "hot" "" "nonsense") wEnvPlain
      (by decide)).1 (by decide)⟩,
   ⟨by decide, by
    have h := (c5_direct_url_validation
      (Query.mk "" "hot" "" "https://www.reddit.com/r/cats/comments/abc/title/?utm=1")
      wEnvPlain (by decide)).2 (by decide)
    rw [h]; decide⟩⟩

/-- C7 counterexample: entering free-text search does not leave the
"videos" sort — `handleGlobalSearch` keeps the sort untouched, so the
claimed coercion example is false on the code. -/
theorem c7_sort_coercion_counterexample :
    (handleGlobalSearch (Query.mk "cats" "videos" "" "") "dogs").sort = "videos" ∧
    (handleGlobalSearch (Query.mk "cats" "videos" "" "") "dogs").activeSearchQuery = "dogs" := by
  decide

/-- C7 (amended): every source-kind switch clears the other two source
kinds, so after any switch at most one source kind is active; the only
sort coercion is in `handleSubredditChange`, which sends the
search-only sorts "relevance" and "comments" back to "hot", while
`handleGlobalSearch` and `handleUrlSearch` leave the sort unchanged
(a "videos" sort survives entering free-text search). -/
theorem c7_source_switch_invariant (q : Query) (s : String) :
    (atMostOneSource (handleSubredditChange q s) ∧
      (handleSubredditChange q s).activeSearchQuery = "" ∧
      (handleSubredditChange q s).activePostUrl = "" ∧
      (handleSubredditChange q s).subreddit = s ∧
      (handleSubredditChange q s).sort =
        (if q.sort = "relevance" ∨ q.sort = "comments" then "hot" else q.sort)) ∧
    (atMostOneSource (handleGlobalSearch q s) ∧
      (handleGlobalSearch q s).subreddit = "" ∧
      (handleGlobalSearch q s).activePostUrl = "" ∧
      (handleGlobalSearch q s).activeSearchQuery = s ∧
      (handleGlobalSearch q s).sort = q.sort) ∧
    (atMostOneSource (handleUrlSearch q s) ∧
      (handleUrlSearch q s).subreddit = "" ∧
      (handleUrlSearch q s).activeSearchQuery = "" ∧
      (handleUrlSearch q s).activePostUrl = s ∧
      (handleUrlSearch q s).sort = q.sort) := by
  refine ⟨⟨?_, rfl, rfl, rfl, rfl⟩, ⟨?_, rfl, rfl, rfl, rfl⟩, ⟨?_, rfl, rfl, rfl, rfl⟩⟩
  · right; right; exact ⟨rfl, rfl⟩
  · right; left; exact ⟨rfl, rfl⟩
  · left; exact ⟨rfl, rfl⟩

/-- Closed form of the session system once mounted: after `n` query
changes, sessions `0..n-1` are aborted and session `n` is the live
current one. -/
theorem mountedSessions_closed (n : Nat) :
    mountedSessions n = ⟨some n, List.replicate n true ++ [false]⟩ := by
  induction n with
  | zero => rfl
  | succ n ih =>
    show queryChange (mountedSessions n) = _
    rw [ih]
    unfold queryChange effectCleanup startFetch abortCurrent
    simp only [List.length_append, List.length_replicate, List.length_set,
      List.length_cons, List.length_nil]
    have hset : (List.replicate n true ++ [false]).set n true =
        List.replicate n true ++ [true] := by
      rw [List.set_append_right n true (by simp)]
      simp
    rw [hset]
    have hrep : List.replicate n true ++ [true] = List.replicate (n + 1) true := by
      rw [List.replicate_succ']
    rw [hrep, List.set_replicate_self]

/-- C8: once mounted, exactly one session is live at any time; a query
change (cleanup abort followed by `fetchPosts`'s cancel-then-replace)
newly aborts exactly one session — the outgoing current one — and
installs the fresh session as the only live one; mid-replacement,
after the abort and before the new controller is installed, no session
is live at all, so two sessions are never simultaneously active. -/
theorem c8_session_replacement (n : Nat) :
    pendingCount (mountedSessions n) = 1 ∧
    (mountedSessions n).current = some n ∧
    (mountedSessions n).aborts.getD n true = false ∧
    pendingCount (effectCleanup (mountedSessions n)) = 0 ∧
    newlyAborted (mountedSessions n) (queryChange (mountedSessions n)) = 1 ∧
    (queryChange (mountedSessions n)).aborts.getD n true = true ∧
    (queryChange (mountedSessions n)).current = some (n + 1) ∧
    pendingCount (queryChange (mountedSessions n)) = 1 := by
  have hc := mountedSessions_closed n
  have hc1 := mountedSessions_closed (n + 1)
  have hq : queryChange (mountedSessions n) = mountedSessions (n + 1) := rfl
  refine ⟨?_, ?_, ?_, ?_, ?_, ?_, ?_, ?_⟩
  · rw [hc]
    simp [pendingCount, List.count_append, List.count_replicate]
  · rw [hc]
  · rw [hc]
    simp [List.getD_eq_getElem?_getD, List.getElem?_append_right]
  · rw [hc]
    unfold effectCleanup abortCurrent
    simp only
    rw [List.set_append_right n true (by simp)]
    simp [pendingCount, List.count_append, List.count_replicate]
  · rw [hq, hc, hc1]
    unfold newlyAborted
    simp only [List.length_append, List.length_replicate, List.length_cons,
      List.length_nil, Nat.zero_add]
    have hcong : ∀ i ∈ List.range (n + 1),
        ((decide (((List.replicate n true ++ [false]).getD i true = false) ∧
          ((List.replicate (n + 1) true ++ [false]).getD i true = true))) = true ↔
        (i == n) = true) := by
      intro i hi
      rw [List.mem_range] at hi
      rcases Nat.lt_or_ge i n with hlt | hge
      · have h1 : (List.replicate n true ++ [false])[i]?.getD true = true := by
          rw [List.getElem?_append_left (by simp [hlt])]
          simp [List.getElem?_replicate, hlt]
        simp [List.getD_eq_getElem?_getD, h1, Nat.ne_of_lt hlt]
      · have hin : i = n := by omega
        subst hin
        have h1 : (List.replicate i true ++ [false])[i]?.getD true = false := by
          rw [List.getElem?_append_right (by simp)]
          simp
        have h2 : (List.replicate (i + 1) true ++ [false])[i]?.getD true = true := by
          rw [List.getElem?_append_left (by simp)]
          simp [List.getElem?_replicate]
        simp [List.getD_eq_getElem?_getD, h1, h2]
    rw [List.countP_congr hcong]
    have hcnt : List.countP (fun i => i == n) (List.range (n + 1)) =
        List.count n (List.range (n + 1)) := by
      simp [List.count]
    rw [hcnt, List.range_succ, List.count_append]
    have hnot : n ∉ List.range n := by simp
    simp [List.count_eq_zero.mpr hnot]
  · rw [hq, hc1]
    simp [List.getD_eq_getElem?_getD, List.getElem?_append_left, List.getElem?_replicate]
  · rw [hq, hc1]
  · rw [hq, hc1]
    simp [pendingCount, List.count_append, List.count_replicate]

/-- C2 counterexample: on a first-attempt 403 the proxy of
src/server.js does not try a second preset — it propagates the 403 body
verbatim, while the claimed algorithm would have answered the second
preset's 200 body. -/
theorem c2_preset_retry_counterexample :
    apiFetchProxy (some "https://www.reddit.com/r/cats/hot.json?limit=50&raw_json=1")
        (.success 403 "blocked") = ⟨403, .text "blocked"⟩ ∧
    upstreamResolverSpec [.response 403 "blocked", .response 200 "ok"] .failed =
      ⟨200, .text "ok"⟩ ∧
    (ProxyResponse.mk 403 (.text "blocked")) ≠ ⟨200, .text "ok"⟩ := by
  refine ⟨rfl, ?_, by decide⟩
  rw [upstreamResolverSpec]
  norm_num [responseOk]
  rw [upstreamResolverSpec]
  norm_num [responseOk]

/-- C2 (amended): the `/api/fetch` proxy makes exactly one upstream
attempt with the single fixed header preset and relays the upstream
status and body verbatim whatever the status — 403 included; a missing
`url` parameter is answered 400, a thrown fetch error 500 with the
"Proxy fetch failed" body.  There is no preset list, no RSS fallback
and no separate "all strategies exhausted" error. -/
theorem c2_proxy_single_attempt (target : String) (upstream : UpstreamResult) :
    apiFetchProxy none upstream = ⟨400, .errJson "Missing url query param" none⟩ ∧
    (∀ status body, apiFetchProxy (some target) (.success status body) =
      ⟨status, .text body⟩) ∧
    (∀ e, apiFetchProxy (some target) (.failure e) =
      ⟨500, .errJson "Proxy fetch failed" (some e)⟩) :=
  ⟨rfl, fun _ _ => rfl, fun _ => rfl⟩

/-! ## The descending bandwidth sort -/

theorem insertRep_ne_nil (x : DashRep) (l : List DashRep) :
    insertRep x l ≠ [] := by
  cases l with
  | nil => simp [insertRep]
  | cons y ys =>
    rw [insertRep]
    split <;> simp

theorem mem_insertRep (a x : DashRep) (l : List DashRep) :
    a ∈ insertRep x l ↔ a = x ∨ a ∈ l := by
  induction l with
  | nil => simp [insertRep]
  | cons y ys ih =>
    rw [insertRep]
    split
    · simp
    · simp [ih]
      tauto

theorem head_insertRep (x h : DashRep) (l : List DashRep)
    (hh : l.head? = some h) :
    (insertRep x l).head? = some (if repBefore x h then x else h) := by
  cases l with
  | nil => simp at hh
  | cons y ys =>
    simp only [List.head?_cons, Option.some.injEq] at hh
    subst hh
    rw [insertRep]
    split <;> simp [*]

/-- Invariant of the stable insertion fold: the head of the result is a
maximum for the effective numeric key. -/
theorem sortFold_head_max :
    ∀ (l acc : List DashRep),
      (∀ r ∈ l, (bwKey r).isSome) → (∀ r ∈ acc, (bwKey r).isSome) →
      (acc ≠ [] → ∃ h, acc.head? = some h ∧ ∀ r ∈ acc, bwVal r ≤ bwVal h) →
      (l ≠ [] ∨ acc ≠ []) →
      ∃ h, (List.foldl (fun a x => insertRep x a) acc l).head? = some h ∧
        ∀ r ∈ List.foldl (fun a x => insertRep x a) acc l, bwVal r ≤ bwVal h := by
  intro l
  induction l with
  | nil =>
    intro acc hkl hka hacc hne
    rcases hne with hne | hne
    · exact absurd rfl hne
    · simpa using hacc hne
  | cons x xs ih =>
    intro acc hkl hka hacc hne
    simp only [List.foldl_cons]
    apply ih
    · intro r hr; exact hkl r (List.mem_cons_of_mem x hr)
    · intro r hr
      rcases (mem_insertRep r x acc).mp hr with hr | hr
      · subst hr; exact hkl r (List.mem_cons_self _ _)
      · exact hka r hr
    · intro _
      rcases heq : acc with _ | ⟨y, ys⟩
      · refine ⟨x, by simp [insertRep], ?_⟩
        intro r hr
        simp [insertRep] at hr
        subst hr; exact le_refl _
      · rw [← heq]
        have haccne : acc ≠ [] := by rw [heq]; simp
        obtain ⟨h, hh, hmax⟩ := hacc haccne
        have hhs : (bwKey h).isSome := by
          apply hka
          rcases acc with _ | ⟨z, zs⟩
          · simp at hh
          · simp only [List.head?_cons, Option.some.injEq] at hh
            rw [← hh]; exact List.mem_cons_self _ _
        have hxs : (bwKey x).isSome := hkl x (List.mem_cons_self _ _)
        refine ⟨if repBefore x h then x else h, head_insertRep x h acc hh, ?_⟩
        intro r hr
        obtain ⟨kx, hkx⟩ := Option.isSome_iff_exists.mp hxs
        obtain ⟨kh, hkh⟩ := Option.isSome_iff_exists.mp hhs
        have hrb : repBefore x h = decide (bwVal h < bwVal x) := by
          rw [repBefore, hkx, hkh]
          simp [bwVal, hkx, hkh]
        rcases (mem_insertRep r x acc).mp hr with hr | hr
        · subst hr
          rw [hrb]
          split
          · exact le_refl _
          · rename_i hcond
            simp at hcond
            omega
        · have h1 := hmax r hr
          rw [hrb]
          split
          · rename_i hcond
            simp at hcond
            omega
          · exact h1
    · right
      exact insertRep_ne_nil x acc

/-- The head of the code's descending sort of a non-empty list of
representations with parseable bandwidths is a representation of
maximal bandwidth. -/
theorem jsSortDesc_head_max (l : List DashRep) (hne : l ≠ [])
    (hkeys : ∀ r ∈ l, (bwKey r).isSome) :
    ∃ m, (jsSortByBandwidthDesc l).head? = some m ∧ m ∈ l ∧
      ∀ r ∈ l, bwVal r ≤ bwVal m := by
  obtain ⟨m, hm, hmax⟩ := sortFold_head_max l [] hkeys (by simp) (by simp) (Or.inl hne)
  refine ⟨m, hm, ?_, ?_⟩
  · have hmem : m ∈ jsSortByBandwidthDesc l := List.mem_of_mem_head? hm
    have hall : ∀ a, a ∈ jsSortByBandwidthDesc l → a ∈ l := by
      intro a ha
      have hgen : ∀ (ll acc : List DashRep), a ∈ List.foldl (fun a2 x => insertRep x a2) acc ll →
          a ∈ acc ∨ a ∈ ll := by
        intro ll
        induction ll with
        | nil => intro acc ha2; simpa using ha2
        | cons x xs ih =>
          intro acc ha2
          simp only [List.foldl_cons] at ha2
          rcases ih (insertRep x acc) ha2 with h2 | h2
          · rcases (mem_insertRep a x acc).mp h2 with h3 | h3
            · right; rw [h3]; exact List.mem_cons_self _ _
            · left; exact h3
          · right; exact List.mem_cons_of_mem x h2
      rcases hgen l [] ha with h2 | h2
      · simp at h2
      · exact h2
    exact hall m hmem
  · intro r hr
    apply hmax
    have hgen : ∀ (ll acc : List DashRep), r ∈ acc ∨ r ∈ ll →
        r ∈ List.foldl (fun a2 x => insertRep x a2) acc ll := by
      intro ll
      induction ll with
      | nil => intro acc hin; rcases hin with h2 | h2; exact h2; simp at h2
      | cons x xs ih =>
        intro acc hin
        simp only [List.foldl_cons]
        apply ih
        rcases hin with h2 | h2
        · left; exact (mem_insertRep r x acc).mpr (Or.inr h2)
        · rcases List.mem_cons.mp h2 with h3 | h3
          · left; exact (mem_insertRep r x acc).mpr (Or.inl h3)
          · right; exact h3
    exact hgen l [] (Or.inr hr)

/-- C10: the video-download path of PostCard parses the DASH manifest
and selects the video representation of highest bandwidth (the head of
the descending bandwidth sort); it redirects to the external merge
service only when both a (truthy) video `BaseURL` and audio `BaseURL`
were found, and in every other case — missing/empty DASH URL, a failed
manifest fetch, or a missing stream — opens the fallback downloader
built from the post permalink. -/
theorem c10_dash_video_download (post : RedditPost) (m : RedditVideo)
    (manifest : Except String DashDoc)
    (hvid : post.is_video = true) (hmedia : post.media = some m) :
    (m.dash_url = "" → proceedWithVideoDownload post manifest =
      some (fallbackDownloaderUrl ("https://www.reddit.com" ++ post.permalink))) ∧
    (∀ e, m.dash_url ≠ "" → manifest = .error e →
      proceedWithVideoDownload post manifest =
        some (fallbackDownloaderUrl ("https://www.reddit.com" ++ post.permalink))) ∧
    (∀ doc, m.dash_url ≠ "" → manifest = .ok doc →
      ((jsTruthyOpt (videoBaseUrlOf doc) && jsTruthyOpt (audioBaseUrlOf doc)) = true →
        proceedWithVideoDownload post manifest =
          some (mergeServiceUrl ("https://www.reddit.com" ++ post.permalink)
            (baseUrlPath m.dash_url ++ (videoBaseUrlOf doc).getD "")
            (baseUrlPath m.dash_url ++ (audioBaseUrlOf doc).getD "")) ∧
        (videoRepsOf doc ≠ [] → (∀ r ∈ videoRepsOf doc, (bwKey r).isSome) →
          ∃ mrep, (jsSortByBandwidthDesc (videoRepsOf doc)).head? = some mrep ∧
            mrep ∈ videoRepsOf doc ∧
            (∀ r ∈ videoRepsOf doc, bwVal r ≤ bwVal mrep) ∧
            videoBaseUrlOf doc = mrep.baseURLs.head?)) ∧
      ((jsTruthyOpt (videoBaseUrlOf doc) && jsTruthyOpt (audioBaseUrlOf doc)) = false →
        proceedWithVideoDownload post manifest =
          some (fallbackDownloaderUrl ("https://www.reddit.com" ++ post.permalink)))) := by
  refine ⟨?_, ?_, ?_⟩
  · intro hd
    unfold proceedWithVideoDownload
    simp [hvid, hmedia, hd]
  · intro e hd he
    unfold proceedWithVideoDownload
    simp [hvid, hmedia, hd, he]
  · intro doc hd hok
    constructor
    · intro htruthy
      constructor
      · unfold proceedWithVideoDownload
        simp [hvid, hmedia, hd, hok, htruthy]
      · intro hne hkeys
        obtain ⟨mrep, hm1, hm2, hm3⟩ := jsSortDesc_head_max (videoRepsOf doc) hne hkeys
        refine ⟨mrep, hm1, hm2, hm3, ?_⟩
        rw [videoBaseUrlOf, hm1]
        rfl
    · intro hfalsy
      unfold proceedWithVideoDownload
      simp [hvid, hmedia, hd, hok, hfalsy]

set_option maxRecDepth 40000 in
/-- Witness for C10: on the concrete manifest the download redirects to
the merge service with the 720p (highest bandwidth) video stream and
the audio stream resolved against the manifest directory. -/
theorem c10_dash_video_download_witness :
    (wVideoPost.is_video = true ∧ wVideoPost.media = some wRedditVideo) ∧
    proceedWithVideoDownload wVideoPost (Except.ok wDashDoc) =
      some (mergeServiceUrl "https://www.reddit.com/r/cats/comments/p1/t/"
        "https://v.redd.it/x/DASH_720.mp4" "https://v.redd.it/x/DASH_AUDIO_128.mp4") ∧
    (jsSortByBandwidthDesc (videoRepsOf wDashDoc)).head? =
      some ⟨some "2000000", ["DASH_720.mp4"]⟩ := by
  refine ⟨⟨rfl, rfl⟩, ?_, by decide⟩
  have h := ((c10_dash_video_download wVideoPost wRedditVideo (Except.ok wDashDoc)
    rfl rfl).2.2 wDashDoc (by decide) rfl).1 (by decide)
  rw [h.1]
  decide

/-! ## The distinct error messages of the 404 classification -/

theorem someOrChar (a : Char) (o : Option Char) : (some a).or o = some a := rfl

theorem notFound_ne_stdFail (sub stx2 : String) (status : Nat) :
    stdFailMsg stx2 status ≠ subredditNotFoundMsg sub := by
  intro h
  have h2 := congrArg (fun x => x.data.head?) h
  simp only [subredditNotFoundMsg, stdFailMsg, String.data_append, List.head?_append,
    List.head?_cons, someOrChar] at h2
  exact absurd h2 (by decide)

theorem notFound_ne_pageFail (sub stx2 : String) (page : Nat) :
    enPageFailMsg page stx2 ≠ subredditNotFoundMsg sub := by
  intro h
  have h2 := congrArg (fun x => x.data.head?) h
  simp only [subredditNotFoundMsg, enPageFailMsg, String.data_append, List.head?_append,
    List.head?_cons, someOrChar] at h2
  exact absurd h2 (by decide)

theorem notFound_ne_urlMsg (sub : String) :
    urlFetchFailedMsg ≠ subredditNotFoundMsg sub := by
  intro h
  have h2 := congrArg (fun x => x.data.head?) h
  simp only [subredditNotFoundMsg, urlFetchFailedMsg, String.data_append,
    List.head?_append, List.head?_cons, someOrChar] at h2
  exact absurd h2 (by decide)

/-- C6: a 404 on the first fetch of a subreddit-only query (no search,
no direct URL) — on any sort path, and on any later engagement page
outside a search — produces the error naming the subreddit; a 404
under an active search or an active URL query never produces that
subreddit-naming message. -/
theorem c6_404_names_subreddit (q : Query) (env : Env) (stx2 : String) (body : JsonBody)
    (hab0 : env.aborted 0 = false)
    (hf0 : env.fetchResult 0 = .success 404 stx2 body) :
    (q.activeSearchQuery = "" → q.activePostUrl = "" →
      (fetchPosts q env).error = some (subredditNotFoundMsg q.subreddit)) ∧
    (∀ collected a2 pages stx3 body2, q.activeSearchQuery = "" →
      collected.length < targetCount → pages < maxPagesToFetch →
      env.aborted pages = false → env.fetchResult pages = .success 404 stx3 body2 →
      (engagementLoop env q collected a2 pages).result =
        .error (.errE (subredditNotFoundMsg q.subreddit))) ∧
    (q.activeSearchQuery ≠ "" → q.activePostUrl = "" →
      ∃ m2, (fetchPosts q env).error = some m2 ∧ m2 ≠ subredditNotFoundMsg q.subreddit) ∧
    (q.activePostUrl ≠ "" → validPostUrl q.activePostUrl = true →
      (fetchPosts q env).error = some urlFetchFailedMsg ∧
      urlFetchFailedMsg ≠ subredditNotFoundMsg q.subreddit) := by
  refine ⟨?_, ?_, ?_, ?_⟩
  · intro hsearch hurl
    rw [fetchPosts_error_eq]
    by_cases hsort : q.sort = "engagement"
    · have hloop := engagementLoop_404 env q [] none 0 stx2 body
        (by simp [targetCount]) (by simp [maxPagesToFetch]) hab0 hf0 hsearch
      unfold fetchPostsCore
      simp only [hurl, ne_eq, not_true_eq_false, if_false, ite_not, hsort, if_true, ite_true]
      simp [hloop, Except.map]
    · unfold fetchPostsCore
      simp only [hurl, ne_eq, not_true_eq_false, if_false, ite_not, hsort, ite_false]
      simp [hf0, responseOk, hsearch, hurl]
  · intro collected a2 pages stx3 body2 hsearch hlen hpage habp hfp
    exact engagementLoop_404 env q collected a2 pages stx3 body2 hlen hpage habp hfp hsearch
  · intro hsearch hurl
    by_cases hsort : q.sort = "engagement"
    · refine ⟨enPageFailMsg 1 stx2, ?_, notFound_ne_pageFail q.subreddit stx2 1⟩
      rw [fetchPosts_error_eq]
      have hloop : (engagementLoop env q [] none 0).result =
          .error (.errE (enPageFailMsg 1 stx2)) := by
        rw [engagementLoop]
        simp [targetCount, maxPagesToFetch, hab0, hf0, responseOk, hsearch]
      unfold fetchPostsCore
      simp only [hurl, ne_eq, not_true_eq_false, if_false, ite_not, hsort, if_true, ite_true]
      simp [hloop, Except.map]
    · refine ⟨stdFailMsg stx2 404, ?_, notFound_ne_stdFail q.subreddit stx2 404⟩
      rw [fetchPosts_error_eq]
      unfold fetchPostsCore
      simp only [hurl, ne_eq, not_true_eq_false, if_false, ite_not, hsort, ite_false]
      simp [hf0, responseOk, hsearch]
  · intro hurl hvalid
    refine ⟨?_, notFound_ne_urlMsg q.subreddit⟩
    rw [fetchPosts_error_eq]
    unfold fetchPostsCore
    simp only [hurl, ne_eq, not_false_eq_true, if_true, ite_not, ite_false]
    rw [if_pos (by simp [hvalid])]
    simp [hf0, responseOk]

/-- If the signal reads aborted in the segment where catch/finally run,
the try body can only have ended in the swallowed `AbortError` or in
the engagement path's silent post-loop return. -/
theorem fetchPostsCore_aborted_end (q : Query) (env : Env)
    (h0 : env.aborted 0 = false)
    (hres : ∀ j, env.fetchResult j ≠ .abortErr → env.aborted (j + 1) = env.aborted j)
    (hfired : env.aborted (fetchPostsCore q env).tEnd = true) :
    (fetchPostsCore q env).result = .error .abortE ∨
    (fetchPostsCore q env).result = .ok (none, none) := by
  by_cases hurl : q.activePostUrl = ""
  · by_cases hsort : q.sort = "engagement"
    · have hloop := engagementLoop_aborted_end env q hres [] none 0
      unfold fetchPostsCore at hfired ⊢
      simp only [hurl, ne_eq, not_true_eq_false, if_false, ite_not, hsort,
        if_true, ite_true] at hfired ⊢
      rcases hloop hfired with h2 | h2
      · right; simp [h2, Except.map]
      · left; simp [h2, Except.map]
    · rcases h0f : env.fetchResult 0 with ⟨status, sx, body⟩ | _ | m
      · have hab1 : env.aborted 1 = false := by
          rw [hres 0 (by rw [h0f]; simp), h0]
        exfalso
        unfold fetchPostsCore at hfired
        simp only [hurl, ne_eq, not_true_eq_false, if_false, ite_not, hsort,
          ite_false, h0f] at hfired
        revert hfired
        repeat' split
        all_goals (intro hfired2; exact absurd hfired2 (by simp [hab1]))
      · left
        unfold fetchPostsCore
        simp only [hurl, ne_eq, not_true_eq_false, if_false, ite_not, hsort,
          ite_false, h0f]
      · have hab1 : env.aborted 1 = false := by
          rw [hres 0 (by rw [h0f]; simp), h0]
        exfalso
        unfold fetchPostsCore at hfired
        simp only [hurl, ne_eq, not_true_eq_false, if_false, ite_not, hsort,
          ite_false, h0f] at hfired
        exact absurd hfired (by simp [hab1])
  · by_cases hv : validPostUrl q.activePostUrl
    · rcases h0f : env.fetchResult 0 with ⟨status, sx, body⟩ | _ | m
      · have hab1 : env.aborted 1 = false := by
          rw [hres 0 (by rw [h0f]; simp), h0]
        exfalso
        unfold fetchPostsCore at hfired
        simp only [hurl, ne_eq, not_false_eq_true, if_true, ite_not, ite_false] at hfired
        rw [if_pos (by simp [hv])] at hfired
        simp only [h0f] at hfired
        revert hfired
        repeat' split
        all_goals (intro hfired2; exact absurd hfired2 (by simp [hab1]))
      · left
        unfold fetchPostsCore
        simp only [hurl, ne_eq, not_false_eq_true, if_true, ite_not, ite_false]
        rw [if_pos (by simp [hv])]
        simp only [h0f]
      · have hab1 : env.aborted 1 = false := by
          rw [hres 0 (by rw [h0f]; simp), h0]
        exfalso
        unfold fetchPostsCore at hfired
        simp only [hurl, ne_eq, not_false_eq_true, if_true, ite_not, ite_false] at hfired
        rw [if_pos (by simp [hv])] at hfired
        simp only [h0f] at hfired
        exact absurd hfired (by simp [hab1])
    · exfalso
      unfold fetchPostsCore at hfired
      simp only [hurl, ne_eq, not_false_eq_true, if_true, ite_not, ite_false] at hfired
      rw [if_neg (by simp [hv])] at hfired
      exact absurd hfired (by simp [h0])

/-- C4: a cancelled fetch session never surfaces an error: whenever the
signal was aborted during the session (it reads aborted at the end of
the run), the abort exception is distinguished from every other error
class and fully suppressed — no error message and no posts are
published. -/
theorem c4_cancelled_no_error (q : Query) (env : Env)
    (henv : EnvConsistent env)
    (hfired : env.aborted ((fetchPosts q env).requests.length) = true) :
    (fetchPosts q env).error = none ∧ (fetchPosts q env).published = none := by
  obtain ⟨h0, hmono, habf, hres⟩ := henv
  rw [fetchPosts_requests, ← fetchPostsCore_tEnd] at hfired
  rcases fetchPostsCore_aborted_end q env h0 hres hfired with h2 | h2
  · constructor
    · rw [fetchPosts_error_none]; intro m; rw [h2]; simp
    · rw [fetchPosts_published_none]; intro l ns; rw [h2]; simp
  · constructor
    · rw [fetchPosts_error_none]; intro m; rw [h2]; simp
    · rw [fetchPosts_published_none]; intro l ns; rw [h2]; simp

/-- The always-aborting witness environment satisfies the signal laws. -/
theorem wEnvAbort_consistent : EnvConsistent wEnvAbort := by
  refine ⟨rfl, ?_, fun i _ => rfl, fun i hne => absurd rfl hne⟩
  intro i j hij hi
  simp only [wEnvAbort, decide_eq_true_eq] at hi ⊢
  omega

/-- Witness for C4: a standard-path session whose only fetch rejects
with `AbortError` ends with no error and no published posts. -/
theorem c4_cancelled_no_error_witness :
    EnvConsistent wEnvAbort ∧
    wEnvAbort.aborted ((fetchPosts (Query.mk "cats" "hot" "" "") wEnvAbort).requests.length) = true ∧
    ((fetchPosts (Query.mk "cats" "hot" "" "") wEnvAbort).error = none ∧
      (fetchPosts (Query.mk "cats" "hot" "" "") wEnvAbort).published = none) :=
  ⟨wEnvAbort_consistent, by decide,
    c4_cancelled_no_error (Query.mk "cats" "hot" "" "") wEnvAbort
      wEnvAbort_consistent (by decide)⟩

/-- C3: the engagement aggregation checks the cancellation signal
before every page fetch (no page is requested at or after an abort
point) and, when cancellation fires at any point mid-aggregation, the
session abandons immediately: no posts are published, no error is
raised (Cancelled, not Succeeded or Failed) and the loading flag is
left for the successor. -/
theorem c3_engagement_cancellation (q : Query) (env : Env)
    (henv : EnvConsistent env)
    (hsort : q.sort = "engagement") (hurl : q.activePostUrl = "")
    (hfired : env.aborted ((fetchPosts q env).requests.length) = true) :
    (fetchPosts q env).published = none ∧
    (fetchPosts q env).error = none ∧
    (fetchPosts q env).loadingCleared = false ∧
    (∀ i, env.aborted i = true → (fetchPosts q env).requests.length ≤ i) := by
  obtain ⟨h0, hmono, habf, hres⟩ := henv
  have hfired2 := hfired
  rw [fetchPosts_requests, ← fetchPostsCore_tEnd] at hfired2
  rcases fetchPostsCore_aborted_end q env h0 hres hfired2 with h2 | h2
  all_goals {
    refine ⟨?_, ?_, ?_, ?_⟩
    · rw [fetchPosts_published_none]; intro l ns; rw [h2]; simp
    · rw [fetchPosts_error_none]; intro m; rw [h2]; simp
    · rw [fetchPosts_loadingCleared, fetchPostsCore_tEnd, ← fetchPosts_requests, hfired]
      rfl
    · intro i hi
      have hle := engagementLoop_abort_le env q [] none 0 i (Nat.zero_le i) hi
      have hpe := engagementLoop_pages_eq env q [] none 0
      rw [fetchPosts_requests]
      unfold fetchPostsCore
      simp only [hurl, ne_eq, not_true_eq_false, if_false, ite_not, hsort,
        if_true, ite_true]
      omega
  }

/-- Witness for C3: an engagement session whose first page fetch
rejects with `AbortError` is abandoned with nothing published, no
error, the loading flag untouched, and no fetch at or past the abort
point. -/
theorem c3_engagement_cancellation_witness :
    (EnvConsistent wEnvAbort ∧
      (Query.mk "cats" "engagement" "" "").sort = "engagement" ∧
      (Query.mk "cats" "engagement" "" "").activePostUrl = "" ∧
      wEnvAbort.aborted
        ((fetchPosts (Query.mk "cats" "engagement" "" "") wEnvAbort).requests.length) = true) ∧
    ((fetchPosts (Query.mk "cats" "engagement" "" "") wEnvAbort).published = none ∧
      (fetchPosts (Query.mk "cats" "engagement" "" "") wEnvAbort).error = none ∧
      (fetchPosts (Query.mk "cats" "engagement" "" "") wEnvAbort).loadingCleared = false ∧
      (∀ i, wEnvAbort.aborted i = true →
        (fetchPosts (Query.mk "cats" "engagement" "" "") wEnvAbort).requests.length ≤ i)) := by
  have hfired : wEnvAbort.aborted
      ((fetchPosts (Query.mk "cats" "engagement" "" "") wEnvAbort).requests.length) = true := by
    simp [fetchPosts, fetchPostsCore, engagementLoop, wEnvAbort, targetCount, maxPagesToFetch]
  exact ⟨⟨wEnvAbort_consistent, rfl, rfl, hfired⟩,
    c3_engagement_cancellation (Query.mk "cats" "engagement" "" "") wEnvAbort
      wEnvAbort_consistent rfl rfl hfired⟩

/-- Witness for C6: a 404 on r/cats with no search and no URL yields
the message naming r/cats; the same 404 under an active search yields a
message that does not name the subreddit. -/
theorem c6_404_names_subreddit_witness :
    (wEnv404.aborted 0 = false ∧
      wEnv404.fetchResult 0 = .success 404 "Not Found" .badShape) ∧
    (fetchPosts (Query.mk "cats" "hot" "" "") wEnv404).error =
      some "Subreddit 'r/cats' not found or is private." ∧
    (∃ m2, (fetchPosts (Query.mk "" "hot" "dogs" "") wEnv404).error = some m2 ∧
      m2 ≠ subredditNotFoundMsg "") := by
  refine ⟨⟨rfl, rfl⟩, ?_, ?_⟩
  · have h := (c6_404_names_subreddit (Query.mk "cats" "hot" "" "") wEnv404
      "Not Found" .badShape rfl rfl).1 rfl rfl
    rw [h]; decide
  · exact (c6_404_names_subreddit (Query.mk "" "hot" "dogs" "") wEnv404
      "Not Found" .badShape rfl rfl).2.2.1 (by decide) rfl

/-- C1: on the engagement sort over an upstream whose pages are all ok
listings with children `ch i` and cursor `af i` and whose session is
never cancelled, the controller pages through the listing, accumulating
exactly the posts that are videos with score over 1500 and more than 50
comments; it fetches at least one and at most five pages, stops exactly
when the target count is collected, the five-page safety limit is hit
or the cursor goes missing — the continuation condition having held at
every earlier page — and publishes the accumulated qualifying list
truncated to 50, never padded, with no error. -/
theorem c1_engagement_aggregation (q : Query) (env : Env)
    (st : Nat → Nat) (stx : Nat → String)
    (ch : Nat → List RedditPost) (af : Nat → Option String)
    (hsort : q.sort = "engagement") (hurl : q.activePostUrl = "")
    (hab : ∀ i, env.aborted i = false)
    (hresp : ∀ i, env.fetchResult i = .success (st i) (stx i) (.listing (ch i) (af i)))
    (hsok : ∀ i, responseOk (st i) = true)
    (hne : ∀ i, ch i ≠ []) :
    1 ≤ (fetchPosts q env).requests.length ∧
    (fetchPosts q env).requests.length ≤ maxPagesToFetch ∧
    (fetchPosts q env).published =
      some ((qualifyingAccum ch (fetchPosts q env).requests.length).take targetCount) ∧
    (fetchPosts q env).error = none ∧
    (∀ p, p ∈ (qualifyingAccum ch (fetchPosts q env).requests.length).take targetCount →
      engagementQualifies p = true) ∧
    (targetCount ≤ (qualifyingAccum ch (fetchPosts q env).requests.length).length ∨
      (fetchPosts q env).requests.length = maxPagesToFetch ∨
      ((af ((fetchPosts q env).requests.length - 1)).getD "") = "") ∧
    (∀ m, m < (fetchPosts q env).requests.length →
      (qualifyingAccum ch m).length < targetCount ∧
      (1 ≤ m → ((af (m - 1)).getD "") ≠ "")) ∧
    (∀ u ∈ (fetchPosts q env).requests, ∃ a2, u = engagementPageUrl q a2) := by
  obtain ⟨hres, hstep, hstop, hprompt, hreqs⟩ :=
    engagementLoop_normal env q st stx ch af hab hresp hsok hne [] none 0
      (qualifyingAccum_zero ch).symm (Nat.zero_le _)
  have hpe := engagementLoop_pages_eq env q [] none 0
  have hbounds := engagementLoop_pages_bounds env q [] none 0
  have hcore : fetchPostsCore q env =
      ⟨(engagementLoop env q [] none 0).result.map (fun pub => (pub, none)),
        (engagementLoop env q [] none 0).requests,
        (engagementLoop env q [] none 0).pagesFetched⟩ := by
    unfold fetchPostsCore
    simp only [hurl, ne_eq, not_true_eq_false, if_false, ite_not, hsort,
      if_true, ite_true]
  have hn : (fetchPosts q env).requests.length =
      (engagementLoop env q [] none 0).pagesFetched := by
    rw [fetchPosts_requests, hcore]
    change (engagementLoop env q [] none 0).requests.length = _
    omega
  refine ⟨?_, ?_, ?_, ?_, ?_, ?_, ?_, ?_⟩
  · rw [hn]
    exact hstep (by simp [targetCount]) (by simp [maxPagesToFetch])
  · rw [hn]
    exact hbounds.2 (Nat.zero_le _)
  · rw [fetchPosts_published_eq, hn]
    exact ⟨none, by rw [hcore, hres]; rfl⟩
  · rw [fetchPosts_error_none]
    intro m
    rw [hcore, hres]
    simp [Except.map]
  · rw [hn]
    intro p hp
    have hp2 : p ∈ qualifyingAccum ch (engagementLoop env q [] none 0).pagesFetched :=
      List.mem_of_mem_take hp
    rw [qualifyingAccum] at hp2
    rw [List.mem_flatten] at hp2
    obtain ⟨l2, hl2, hpl2⟩ := hp2
    rw [List.mem_map] at hl2
    obtain ⟨i, _, hil⟩ := hl2
    rw [← hil] at hpl2
    exact List.of_mem_filter hpl2
  · rw [hn]
    exact hstop
  · rw [hn]
    intro m hm
    obtain ⟨h1, h2⟩ := hprompt m (Nat.zero_le m) hm
    exact ⟨h1, fun hm1 => h2 hm1⟩
  · rw [fetchPosts_requests, hcore]
    exact hreqs

/-- Witness for C1: a concrete two-page run — each page holds one
qualifying video and one non-qualifying post, the cursor disappears
after page two — fetches exactly two pages and publishes exactly the
two qualifying videos, unpadded and error-free. -/
theorem c1_engagement_aggregation_witness :
    ((Query.mk "cats" "engagement" "" "").sort = "engagement" ∧
      (Query.mk "cats" "engagement" "" "").activePostUrl = "" ∧
      (∀ i, wEnvPages.aborted i = false) ∧
      (∀ i, wEnvPages.fetchResult i = .success 200 "OK" (.listing (wCh i) (wAf i))) ∧
      (∀ i : Nat, responseOk 200 = true) ∧
      (∀ i : Nat, wCh i ≠ [])) ∧
    (fetchPosts (Query.mk "cats" "engagement" "" "") wEnvPages).requests.length = 2 ∧
    (fetchPosts (Query.mk "cats" "engagement" "" "") wEnvPages).published =
      some [wVid, wVid] ∧
    (fetchPosts (Query.mk "cats" "engagement" "" "") wEnvPages).error = none := by
  have h := c1_engagement_aggregation (Query.mk "cats" "engagement" "" "") wEnvPages
    (fun _ => 200) (fun _ => "OK") wCh wAf rfl rfl (fun _ => rfl) (fun _ => rfl)
    (fun _ => by simp [responseOk]) (fun _ => by simp [wCh])
  refine ⟨⟨rfl, rfl, fun _ => rfl, fun _ => rfl, fun _ => by decide, fun _ => by simp [wCh]⟩,
    ?_, ?_, h.2.2.2.1⟩
  · simp [fetchPosts, fetchPostsCore, engagementLoop, wEnvPages, wCh, wAf, wVid, mkPost,
      postLoopPublish, responseOk, engagementQualifies, targetCount, maxPagesToFetch,
      minScore, minComments, Except.map]
  · simp [fetchPosts, fetchPostsCore, engagementLoop, wEnvPages, wCh, wAf, wVid, mkPost,
      postLoopPublish, responseOk, engagementQualifies, targetCount, maxPagesToFetch,
      minScore, minComments, Except.map]
